import Mathlib

/-!
Shallow embedding of the RoleColorAI core (resume_scorer.py,
rolecolor_framework.py, latex_generator.py, e2b_runner.py) and proofs of the
specified properties.

Modelling conventions:
* Python strings are modelled as `List Char` (or `String` where convenient);
  Python floats (the keyword weights and scores) are modelled as exact
  rationals `ℚ`.
* Regular-expression matching with word boundaries is modelled by an explicit
  left-to-right scan; the character classes `\w` and whitespace are modelled
  on the ASCII range (the inputs handled by the program).
* Scanning functions are written with an explicit fuel argument (bounded by
  the text length) so that they reduce inside the kernel.
-/

set_option maxRecDepth 2400

/-- Word character, modelling the regex class `\w` (ASCII range). -/
def isWordChar (c : Char) : Bool := c.isAlphanum || c == '_'

/-- Whether the first character of `l` (if any) is a word character;
characters past the end of the text count as non-word for `\b`. -/
def nextWordFlag (l : List Char) : Bool :=
  match l.head? with
  | some d => isWordChar d
  | none => false

/-- Fuel-driven scan counting the non-overlapping, word-boundary-respecting
occurrences of `kw` in the remaining text, as `re.findall` does for the
pattern `\b<escaped kw>\b` (resume_scorer.py line 45-46).  `prevW` records
whether the character just before the current position is a word character
(false at the start of the text). -/
def countKwGo (kw : List Char) : Nat → List Char → Bool → Nat
  | 0, _, _ => 0
  | _ + 1, [], _ => 0
  | fuel + 1, c :: rest, prevW =>
    if kw.isPrefixOf (c :: rest) &&
        (prevW != isWordChar (kw.headD ' ')) &&
        (isWordChar (kw.getLastD ' ') != nextWordFlag ((c :: rest).drop kw.length)) then
      1 + countKwGo kw fuel ((c :: rest).drop kw.length) (isWordChar (kw.getLastD ' '))
    else countKwGo kw fuel rest (isWordChar c)

/-- Number of word-boundary matches of `kw` in `text`. -/
def countKw (kw text : List Char) : Nat :=
  countKwGo kw text.length text false

/-- Python substring containment `pat in text` (for non-empty `pat`):
scan every position for a prefix match. -/
def hasSub (pat : List Char) : List Char → Bool
  | [] => pat.isEmpty
  | c :: rest => pat.isPrefixOf (c :: rest) || hasSub pat rest

/-- Python `str.replace`: replace every non-overlapping occurrence of `pat`
(non-empty in all uses here) by `repl`, scanning left to right. -/
def replaceAll (pat repl : List Char) : List Char → List Char
  | [] => []
  | c :: rest =>
    if h : pat ≠ [] ∧ pat.isPrefixOf (c :: rest) = true then
      repl ++ replaceAll pat repl ((c :: rest).drop pat.length)
    else
      c :: replaceAll pat repl rest
termination_by l => l.length
decreasing_by
  · simp only [List.length_drop, List.length_cons]
    have : pat.length ≠ 0 := fun hh => h.1 (List.eq_nil_of_length_eq_zero hh)
    omega
  · simp

/-- Python `text.split('\n')`. -/
def splitNl : List Char → List (List Char)
  | [] => [[]]
  | c :: rest =>
    if c = '\n' then [] :: splitNl rest
    else
      match splitNl rest with
      | [] => [[c]]
      | h :: t => (c :: h) :: t

/-- Python `'\n'.join(lines)`. -/
def joinNl : List (List Char) → List Char
  | [] => []
  | [l] => l
  | l :: l2 :: rest => l ++ '\n' :: joinNl (l2 :: rest)

/-- Python `re.sub(r'\s+', ' ', text)`: collapse each maximal run of
whitespace into a single space. -/
def collapseWs : List Char → List Char
  | [] => []
  | [c] => if c.isWhitespace then [' '] else [c]
  | c :: d :: rest =>
    if c.isWhitespace then
      if d.isWhitespace then collapseWs (d :: rest)
      else ' ' :: collapseWs (d :: rest)
    else c :: collapseWs (d :: rest)

/-- Python `str.strip()`: drop whitespace from both ends. -/
def stripWs (l : List Char) : List Char :=
  ((l.dropWhile Char.isWhitespace).reverse.dropWhile Char.isWhitespace).reverse

/-- `preprocess_text` (resume_scorer.py lines 20-31): lowercase, collapse
whitespace runs to a single space, strip the ends. -/
def preprocess_text (text : List Char) : List Char :=
  stripWs (collapseWs (text.map Char.toLower))

/-- The four RoleColors, in the declaration order of `ROLECOLOR_KEYWORDS`
(rolecolor_framework.py). -/
inductive Role where
  | Builder
  | Enabler
  | Thriver
  | Supportee
  deriving DecidableEq

/-- Declaration index of a RoleColor (Python dict insertion order). -/
def roleIdx : Role → Nat
  | Role.Builder => 0
  | Role.Enabler => 1
  | Role.Thriver => 2
  | Role.Supportee => 3

/-- The archetypes in lexicon declaration order. -/
def roles : List Role := [Role.Builder, Role.Enabler, Role.Thriver, Role.Supportee]

/-- Builder keyword weights, ROLECOLOR_KEYWORDS["Builder"] (rolecolor_framework.py lines 43-91). -/
def builderKeywords : List (String × ℚ) := [
  ("strategy", 1.5),
  ("strategic", 1.5),
  ("vision", 1.5),
  ("visionary", 1.5),
  ("roadmap", 1.3),
  ("architecture", 1.4),
  ("architect", 1.4),
  ("innovate", 1.5),
  ("innovation", 1.5),
  ("innovative", 1.4),
  ("create", 1.0),
  ("created", 1.0),
  ("design", 1.2),
  ("designed", 1.2),
  ("develop", 1.0),
  ("developed", 1.0),
  ("build", 1.2),
  ("built", 1.2),
  ("lead", 1.3),
  ("led", 1.3),
  ("pioneer", 1.5),
  ("pioneered", 1.5),
  ("transform", 1.4),
  ("transformed", 1.4),
  ("spearhead", 1.4),
  ("spearheaded", 1.4),
  ("scalable", 1.3),
  ("scale", 1.2),
  ("scaled", 1.2),
  ("growth", 1.3),
  ("expand", 1.2),
  ("expanded", 1.2),
  ("future-proof", 1.3),
  ("system", 1.0),
  ("platform", 1.1),
  ("framework", 1.2),
  ("foundation", 1.2),
  ("initiative", 1.2)
]

/-- Enabler keyword weights, ROLECOLOR_KEYWORDS["Enabler"] (rolecolor_framework.py lines 93-145). -/
def enablerKeywords : List (String × ℚ) := [
  ("collaborate", 1.5),
  ("collaborated", 1.5),
  ("collaboration", 1.5),
  ("collaborative", 1.4),
  ("coordinate", 1.4),
  ("coordinated", 1.4),
  ("coordination", 1.4),
  ("facilitate", 1.5),
  ("facilitated", 1.5),
  ("communicate", 1.3),
  ("communicated", 1.3),
  ("communication", 1.3),
  ("present", 1.1),
  ("presented", 1.1),
  ("stakeholder", 1.4),
  ("stakeholders", 1.4),
  ("cross-functional", 1.5),
  ("cross functional", 1.5),
  ("bridge", 1.3),
  ("bridged", 1.3),
  ("integrate", 1.2),
  ("integrated", 1.2),
  ("integration", 1.2),
  ("support", 1.2),
  ("supported", 1.2),
  ("enable", 1.4),
  ("enabled", 1.4),
  ("empower", 1.4),
  ("empowered", 1.4),
  ("mentor", 1.5),
  ("mentored", 1.5),
  ("mentoring", 1.5),
  ("coach", 1.4),
  ("coached", 1.4),
  ("partner", 1.3),
  ("partnered", 1.3),
  ("partnership", 1.3),
  ("align", 1.2),
  ("aligned", 1.2),
  ("alignment", 1.2),
  ("team", 1.0),
  ("teams", 1.0)
]

/-- Thriver keyword weights, ROLECOLOR_KEYWORDS["Thriver"] (rolecolor_framework.py lines 147-205). -/
def thriverKeywords : List (String × ℚ) := [
  ("fast-paced", 1.5),
  ("fast paced", 1.5),
  ("rapid", 1.3),
  ("rapidly", 1.3),
  ("quick", 1.2),
  ("quickly", 1.2),
  ("accelerate", 1.3),
  ("accelerated", 1.3),
  ("deadline", 1.4),
  ("deadlines", 1.4),
  ("on-time", 1.3),
  ("on time", 1.3),
  ("timely", 1.2),
  ("agile", 1.4),
  ("adapt", 1.4),
  ("adapted", 1.4),
  ("adaptable", 1.4),
  ("pivot", 1.4),
  ("pivoted", 1.4),
  ("flexible", 1.3),
  ("flexibility", 1.3),
  ("dynamic", 1.3),
  ("ownership", 1.5),
  ("own", 1.2),
  ("owned", 1.2),
  ("accountability", 1.4),
  ("accountable", 1.4),
  ("initiative", 1.3),
  ("proactive", 1.4),
  ("proactively", 1.4),
  ("high-pressure", 1.5),
  ("high pressure", 1.5),
  ("pressure", 1.3),
  ("urgent", 1.4),
  ("urgency", 1.4),
  ("challenging", 1.2),
  ("challenge", 1.2),
  ("challenges", 1.2),
  ("deliver", 1.3),
  ("delivered", 1.3),
  ("achieve", 1.3),
  ("achieved", 1.3),
  ("accomplish", 1.3),
  ("accomplished", 1.3),
  ("exceed", 1.4),
  ("exceeded", 1.4)
]

/-- Supportee keyword weights, ROLECOLOR_KEYWORDS["Supportee"] (rolecolor_framework.py lines 207-266). -/
def supporteeKeywords : List (String × ℚ) := [
  ("reliable", 1.5),
  ("reliability", 1.5),
  ("consistent", 1.4),
  ("consistency", 1.4),
  ("stable", 1.3),
  ("stability", 1.3),
  ("dependable", 1.5),
  ("steady", 1.3),
  ("maintain", 1.4),
  ("maintained", 1.4),
  ("maintenance", 1.4),
  ("monitor", 1.3),
  ("monitored", 1.3),
  ("monitoring", 1.3),
  ("ensure", 1.3),
  ("ensured", 1.3),
  ("upkeep", 1.3),
  ("document", 1.4),
  ("documented", 1.4),
  ("documentation", 1.5),
  ("process", 1.2),
  ("processes", 1.2),
  ("procedure", 1.4),
  ("procedures", 1.4),
  ("standard", 1.3),
  ("standards", 1.3),
  ("quality", 1.4),
  ("accuracy", 1.4),
  ("accurate", 1.4),
  ("compliance", 1.5),
  ("compliant", 1.5),
  ("audit", 1.4),
  ("audited", 1.4),
  ("troubleshoot", 1.3),
  ("troubleshooting", 1.3),
  ("resolve", 1.2),
  ("resolved", 1.2),
  ("fix", 1.1),
  ("fixed", 1.1),
  ("debug", 1.2),
  ("debugged", 1.2),
  ("operational", 1.3),
  ("operations", 1.2),
  ("routine", 1.2),
  ("systematic", 1.3),
  ("methodical", 1.4),
  ("thorough", 1.3)
]

/-- The lexicon: keyword table per RoleColor (ROLECOLOR_KEYWORDS). -/
def ROLECOLOR_KEYWORDS : Role → List (String × ℚ)
  | Role.Builder => builderKeywords
  | Role.Enabler => enablerKeywords
  | Role.Thriver => thriverKeywords
  | Role.Supportee => supporteeKeywords

/-- `find_keyword_matches` (resume_scorer.py lines 34-50): the
`(keyword, weight, count)` records of the keywords with at least one
word-boundary occurrence, in lexicon order. -/
def find_keyword_matches (text : List Char) (keywords : List (String × ℚ)) :
    List (String × ℚ × Nat) :=
  keywords.filterMap fun kw =>
    let count := countKw (kw.1.toList.map Char.toLower) (text.map Char.toLower)
    if 0 < count then some (kw.1, kw.2, count) else none

/-- Per-term contribution with diminishing returns
(resume_scorer.py line 68): `weight * (1 + 0.3 * (min(count, 5) - 1))`. -/
def termContribution (weight : ℚ) (count : Nat) : ℚ :=
  weight * (1 + (3 / 10) * (((min count 5 : Nat) : ℚ) - 1))

/-- `calculate_role_score` (resume_scorer.py lines 53-71): total weighted
score and the list of matches for one RoleColor. -/
def calculate_role_score (text : List Char) (keywords : List (String × ℚ)) :
    ℚ × List (String × ℚ × Nat) :=
  let ms := find_keyword_matches text keywords
  (ms.foldl (fun acc m => acc + termContribution m.2.1 m.2.2) 0, ms)

/-- Raw score of one RoleColor on preprocessed text `pre`. -/
def raw_scores_of (pre : List Char) (r : Role) : ℚ :=
  (calculate_role_score pre (ROLECOLOR_KEYWORDS r)).1

/-- Match records of one RoleColor on preprocessed text `pre`. -/
def matches_of (pre : List Char) (r : Role) : List (String × ℚ × Nat) :=
  (calculate_role_score pre (ROLECOLOR_KEYWORDS r)).2

/-- `total = sum(raw_scores.values())` (resume_scorer.py line 97). -/
def total_raw_of (pre : List Char) : ℚ :=
  (roles.map (raw_scores_of pre)).sum

/-- Normalisation (resume_scorer.py lines 99-103): equal distribution when no
keyword matched, otherwise raw score over grand total. -/
def normalized_of (pre : List Char) : Role → ℚ :=
  if total_raw_of pre = 0 then fun _ => 1 / 4
  else fun r => raw_scores_of pre r / total_raw_of pre

/-- `max(normalized_scores, key=normalized_scores.get)`
(resume_scorer.py line 106): Python `max` starts from the first key in dict
insertion order and replaces the current best only on a strictly larger
value, so the first archetype among a tied maximum wins. -/
def dominantRole (f : Role → ℚ) : Role :=
  [Role.Enabler, Role.Thriver, Role.Supportee].foldl
    (fun best r => if f best < f r then r else best) Role.Builder

/-- Result dictionary of `score_resume` (resume_scorer.py lines 108-114). -/
structure ScoreResult where
  scores : Role → ℚ
  raw_scores : Role → ℚ
  matchRecords : Role → List (String × ℚ × Nat)
  dominant_role : Role
  total_keywords_matched : Nat

/-- `score_resume` (resume_scorer.py lines 74-114). -/
def score_resume (resume_text : String) : ScoreResult :=
  let pre := preprocess_text resume_text.toList
  { scores := normalized_of pre
    raw_scores := raw_scores_of pre
    matchRecords := matches_of pre
    dominant_role := dominantRole (normalized_of pre)
    total_keywords_matched := (roles.map fun r => (matches_of pre r).length).sum }

/-! ### Helper lemmas about the scoring engine -/

/-- The score fold is the sum of the per-term contributions. -/
theorem foldl_contribution (l : List (String × ℚ × Nat)) :
    ∀ a : ℚ, l.foldl (fun acc m => acc + termContribution m.2.1 m.2.2) a =
      a + (l.map fun m => termContribution m.2.1 m.2.2).sum := by
  induction l with
  | nil => intro a; simp
  | cons m t ih => intro a; simp [List.foldl_cons, ih, add_assoc]

/-- The raw score equals the fold over the match records. -/
theorem raw_scores_of_eq_foldl (pre : List Char) (r : Role) :
    raw_scores_of pre r =
      (matches_of pre r).foldl (fun acc m => acc + termContribution m.2.1 m.2.2) 0 := rfl

/-- The grand total is the sum of the four raw scores. -/
theorem total_raw_of_eq (pre : List Char) :
    total_raw_of pre = raw_scores_of pre Role.Builder + (raw_scores_of pre Role.Enabler +
      (raw_scores_of pre Role.Thriver + (raw_scores_of pre Role.Supportee + 0))) := by
  simp [total_raw_of, roles]

/-- Python `max` over the fixed archetype order: the result is maximal, and
every archetype earlier in declaration order scores strictly less. -/
theorem dominant_spec (f : Role → ℚ) (r : Role) :
    f r ≤ f (dominantRole f) ∧
      (roleIdx r < roleIdx (dominantRole f) → f r < f (dominantRole f)) := by
  unfold dominantRole
  simp only [List.foldl_cons, List.foldl_nil]
  split_ifs with h1 h2 h3 h2 h3 h3 h3 <;>
    (try simp only [not_lt] at h1 h2 h3) <;>
    cases r <;>
    refine ⟨by first | exact le_refl _ | linarith,
      fun hlt => by first | exact absurd hlt (by decide) | linarith⟩

/-! ### Claims about the scoring engine -/

/-- C1: for every input text the normalized scores sum to 1; in the
zero-total branch each archetype gets 1/4, otherwise each archetype gets its
raw score divided by the grand total (exactly, in the rational model). -/
theorem claim1_normalized_sum (text : String) :
    ((roles.map (score_resume text).scores).sum = 1) ∧
    (∀ r : Role, (score_resume text).scores r =
      if total_raw_of (preprocess_text text.toList) = 0 then 1 / 4
      else (score_resume text).raw_scores r / total_raw_of (preprocess_text text.toList)) := by
  constructor
  · show (roles.map (normalized_of (preprocess_text text.toList))).sum = 1
    set pre := preprocess_text text.toList with hpre
    unfold normalized_of
    split_ifs with h
    · simp [roles]; norm_num
    · have hT := total_raw_of_eq pre
      simp only [roles, List.map_cons, List.map_nil, List.sum_cons, List.sum_nil]
      rw [add_zero, div_add_div_same, div_add_div_same, div_add_div_same,
        div_eq_one_iff_eq h]
      linarith [hT]
  · intro r
    show normalized_of (preprocess_text text.toList) r = _
    unfold normalized_of
    split_ifs with h
    · rfl
    · rfl

/-- C5: the dominant archetype maximises the normalized score, and every
archetype earlier in the fixed declaration order (Builder, Enabler, Thriver,
Supportee) scores strictly less, so the first archetype among a tied maximum
wins; the function is deterministic by construction. -/
theorem claim5_dominant_first_max (text : String) (r : Role) :
    (score_resume text).scores r ≤ (score_resume text).scores ((score_resume text).dominant_role) ∧
      (roleIdx r < roleIdx ((score_resume text).dominant_role) →
        (score_resume text).scores r < (score_resume text).scores ((score_resume text).dominant_role)) :=
  dominant_spec (normalized_of (preprocess_text text.toList)) r

/-- Auxiliary: a raw score vanishes when the RoleColor has no matches. -/
theorem raw_scores_of_eq_zero (pre : List Char) (r : Role)
    (h : matches_of pre r = []) : raw_scores_of pre r = 0 := by
  rw [raw_scores_of_eq_foldl, h]
  rfl

/-- C6: whenever no term matched for any archetype (in particular for empty
or whitespace-only text), `score_resume` returns the equal distribution:
every archetype gets normalized score 1/4. -/
theorem claim6_no_matches_equal_distribution (text : String)
    (h : (score_resume text).matchRecords Role.Builder = [] ∧
         (score_resume text).matchRecords Role.Enabler = [] ∧
         (score_resume text).matchRecords Role.Thriver = [] ∧
         (score_resume text).matchRecords Role.Supportee = []) :
    ∀ r : Role, (score_resume text).scores r = 1 / 4 := by
  intro r
  obtain ⟨hB, hE, hT, hS⟩ := h
  have htot : total_raw_of (preprocess_text text.toList) = 0 := by
    rw [total_raw_of_eq,
      raw_scores_of_eq_zero _ _ hB, raw_scores_of_eq_zero _ _ hE,
      raw_scores_of_eq_zero _ _ hT, raw_scores_of_eq_zero _ _ hS]
    norm_num
  show normalized_of (preprocess_text text.toList) r = 1 / 4
  unfold normalized_of
  rw [if_pos htot]

/-- Witness for C6 at the empty string. -/
theorem claim6_no_matches_equal_distribution_witness :
    ((score_resume "").matchRecords Role.Builder = [] ∧
     (score_resume "").matchRecords Role.Enabler = [] ∧
     (score_resume "").matchRecords Role.Thriver = [] ∧
     (score_resume "").matchRecords Role.Supportee = []) ∧
      (score_resume "").scores Role.Builder = 1 / 4 :=
  ⟨by decide, claim6_no_matches_equal_distribution "" (by decide) Role.Builder⟩

/-- Evaluation rule: a single occurrence contributes exactly its weight. -/
theorem termContribution_one (w : ℚ) : termContribution w 1 = w := by
  have h : min 1 5 = 1 := by decide
  simp [termContribution, h]

/-- Evaluation rule for `dominantRole` when Builder is never strictly beaten. -/
theorem dominantRole_eq_builder (f : Role → ℚ)
    (h1 : ¬ f Role.Builder < f Role.Enabler) (h2 : ¬ f Role.Builder < f Role.Thriver)
    (h3 : ¬ f Role.Builder < f Role.Supportee) : dominantRole f = Role.Builder := by
  unfold dominantRole
  simp only [List.foldl_cons, List.foldl_nil]
  rw [if_neg h1, if_neg h2, if_neg h3]

/-- Evaluation rule for `dominantRole` when Thriver strictly beats Builder and
is never strictly beaten afterwards. -/
theorem dominantRole_eq_thriver (f : Role → ℚ)
    (h1 : ¬ f Role.Builder < f Role.Enabler) (h2 : f Role.Builder < f Role.Thriver)
    (h3 : ¬ f Role.Thriver < f Role.Supportee) : dominantRole f = Role.Thriver := by
  unfold dominantRole
  simp only [List.foldl_cons, List.foldl_nil]
  rw [if_neg h1, if_pos h2, if_neg h3]

/-- Pointwise value of the normalized scores when some keyword matched. -/
theorem normalized_of_apply (pre : List Char) (hne : total_raw_of pre ≠ 0) (r : Role) :
    normalized_of pre r = raw_scores_of pre r / total_raw_of pre := by
  unfold normalized_of
  rw [if_neg hne]

/-- Witness for C5 on the text "own": the dominant archetype is Thriver
(declaration index 2) and Builder scores strictly less. -/
theorem claim5_dominant_first_max_witness :
    roleIdx Role.Builder < roleIdx ((score_resume "own").dominant_role) ∧
      (score_resume "own").scores Role.Builder <
        (score_resume "own").scores ((score_resume "own").dominant_role) := by
  have hB : raw_scores_of (preprocess_text "own".toList) Role.Builder = 0 := rfl
  have hE : raw_scores_of (preprocess_text "own".toList) Role.Enabler = 0 := rfl
  have hT : raw_scores_of (preprocess_text "own".toList) Role.Thriver =
      0 + termContribution 1.2 1 := rfl
  have hS : raw_scores_of (preprocess_text "own".toList) Role.Supportee = 0 := rfl
  have htot : total_raw_of (preprocess_text "own".toList) = 6 / 5 := by
    rw [total_raw_of_eq, hB, hE, hT, hS, termContribution_one]
    norm_num
  have hne : total_raw_of (preprocess_text "own".toList) ≠ 0 := by
    rw [htot]; norm_num
  have hdom : (score_resume "own").dominant_role = Role.Thriver := by
    show dominantRole (normalized_of (preprocess_text "own".toList)) = Role.Thriver
    apply dominantRole_eq_thriver
    · rw [normalized_of_apply _ hne, normalized_of_apply _ hne, hB, hE]
      exact lt_irrefl _
    · rw [normalized_of_apply _ hne, normalized_of_apply _ hne, hB, hT,
        termContribution_one, htot]
      norm_num
    · rw [normalized_of_apply _ hne, normalized_of_apply _ hne, hS, hT,
        termContribution_one, htot]
      norm_num
  have hidx : roleIdx Role.Builder < roleIdx ((score_resume "own").dominant_role) := by
    rw [hdom]; decide
  exact ⟨hidx, (claim5_dominant_first_max "own" Role.Builder).2 hidx⟩

/-- C2 counterexample: on the spec example text, the Builder matches are not
contained in the set {led, strategic, architecture, scalable} claimed by the
spec — the Builder term "platform" also matches. -/
theorem claim2_example_counterexample :
    ¬ (((score_resume "I led the strategic architecture of a scalable platform").matchRecords
          Role.Builder).map (fun m => m.1) ⊆
        ["led", "strategic", "architecture", "scalable"]) := by decide

/-- C2 (amended): on the spec example text the matched Builder terms are
exactly {strategic, architecture, led, scalable, platform} (in lexicon
order), the dominant archetype is Builder, and Builder's normalized score
exceeds 1/2 (it is exactly 1). -/
theorem claim2_example_amended :
    (((score_resume "I led the strategic architecture of a scalable platform").matchRecords
          Role.Builder).map (fun m => m.1) =
        ["strategic", "architecture", "led", "scalable", "platform"]) ∧
    (score_resume "I led the strategic architecture of a scalable platform").dominant_role =
        Role.Builder ∧
    1 / 2 < (score_resume "I led the strategic architecture of a scalable platform").scores
        Role.Builder := by
  have hB : raw_scores_of
      (preprocess_text "I led the strategic architecture of a scalable platform".toList)
      Role.Builder =
      0 + termContribution 1.5 1 + termContribution 1.4 1 + termContribution 1.3 1
        + termContribution 1.3 1 + termContribution 1.1 1 := rfl
  have hE : raw_scores_of
      (preprocess_text "I led the strategic architecture of a scalable platform".toList)
      Role.Enabler = 0 := rfl
  have hT : raw_scores_of
      (preprocess_text "I led the strategic architecture of a scalable platform".toList)
      Role.Thriver = 0 := rfl
  have hS : raw_scores_of
      (preprocess_text "I led the strategic architecture of a scalable platform".toList)
      Role.Supportee = 0 := rfl
  have hB6 : raw_scores_of
      (preprocess_text "I led the strategic architecture of a scalable platform".toList)
      Role.Builder = 33 / 5 := by
    rw [hB]
    simp only [termContribution_one]
    norm_num
  have htot : total_raw_of
      (preprocess_text "I led the strategic architecture of a scalable platform".toList) =
      33 / 5 := by
    rw [total_raw_of_eq, hB6, hE, hT, hS]
    norm_num
  have hne : total_raw_of
      (preprocess_text "I led the strategic architecture of a scalable platform".toList) ≠ 0 := by
    rw [htot]; norm_num
  refine ⟨by decide, ?_, ?_⟩
  · show dominantRole (normalized_of
      (preprocess_text "I led the strategic architecture of a scalable platform".toList)) =
        Role.Builder
    apply dominantRole_eq_builder <;>
      rw [normalized_of_apply _ hne, normalized_of_apply _ hne, hB6, htot] <;>
      first
        | (rw [hE]; norm_num)
        | (rw [hT]; norm_num)
        | (rw [hS]; norm_num)
  · show 1 / 2 < normalized_of
      (preprocess_text "I led the strategic architecture of a scalable platform".toList)
        Role.Builder
    rw [normalized_of_apply _ hne, hB6, htot]
    norm_num

/-- C4: the role score is the sum over match records of
`weight * (1 + 0.3 * (min(count,5) - 1))`; a term occurring 10 times
contributes the same as one occurring 5 times, while the match record still
stores the uncapped count 10. -/
theorem claim4_diminishing_returns :
    (∀ (text : List Char) (keywords : List (String × ℚ)),
      (calculate_role_score text keywords).1 =
        ((calculate_role_score text keywords).2.map
          fun m => termContribution m.2.1 m.2.2).sum) ∧
    (∀ w : ℚ, termContribution w 10 = termContribution w 5) ∧
    (((score_resume "own own own own own own own own own own").matchRecords
        Role.Thriver).map (fun m => (m.1, m.2.2)) = [("own", 10)]) ∧
    ((score_resume "own own own own own own own own own own").raw_scores Role.Thriver =
      (score_resume "own own own own own").raw_scores Role.Thriver) := by
  have hmin105 : (min 10 5 : Nat) = 5 := by decide
  have hmin55 : (min 5 5 : Nat) = 5 := by decide
  have hcontrib : ∀ w : ℚ, termContribution w 10 = termContribution w 5 := by
    intro w
    simp [termContribution, hmin105, hmin55]
  refine ⟨?_, hcontrib, by decide, ?_⟩
  · intro text keywords
    show ((find_keyword_matches text keywords).foldl
        (fun acc m => acc + termContribution m.2.1 m.2.2) 0) = _
    rw [foldl_contribution, zero_add]
    rfl
  · have h10 : (score_resume "own own own own own own own own own own").raw_scores
        Role.Thriver = 0 + termContribution 1.2 10 := rfl
    have h5 : (score_resume "own own own own own").raw_scores Role.Thriver =
        0 + termContribution 1.2 5 := rfl
    rw [h10, h5, hcontrib]

/-- Generic fact: a filterMap whose function keeps exactly the elements
satisfying `p` produces one output per kept element. -/
theorem length_filterMap_ite {α β : Type} (p : α → Prop) [DecidablePred p] (g : α → β)
    (l : List α) :
    (l.filterMap fun a => if p a then some (g a) else none).length =
      (l.filter fun a => decide (p a)).length := by
  induction l with
  | nil => rfl
  | cons a t ih =>
    by_cases h : p a
    · simp [List.filterMap_cons, List.filter_cons, h, ih]
    · simp [List.filterMap_cons, List.filter_cons, h, ih]

/-- Each keyword with at least one occurrence produces exactly one match
record, so the number of match records is the number of matched keywords. -/
theorem find_keyword_matches_length (text : List Char) (keywords : List (String × ℚ)) :
    (find_keyword_matches text keywords).length =
      (keywords.filter fun kw =>
        decide (0 < countKw (kw.1.toList.map Char.toLower)
          (text.map Char.toLower))).length :=
  length_filterMap_ite
    (fun kw : String × ℚ =>
      0 < countKw (kw.1.toList.map Char.toLower) (text.map Char.toLower))
    (fun kw : String × ℚ =>
      (kw.1, kw.2, countKw (kw.1.toList.map Char.toLower) (text.map Char.toLower)))
    keywords

/-- C10: `total_keywords_matched` counts, per archetype, the keywords that
occur at least once (one per (archetype, term) pair, regardless of the
occurrence count), not the sum of occurrence counts: on "own own" it is 1
while the occurrence counts sum to 2. -/
theorem claim10_total_keywords (text : String) :
    ((score_resume text).total_keywords_matched =
      (roles.map fun r =>
        ((ROLECOLOR_KEYWORDS r).filter fun kw =>
          decide (0 < countKw (kw.1.toList.map Char.toLower)
            ((preprocess_text text.toList).map Char.toLower))).length).sum) ∧
    (∀ r : Role, ((ROLECOLOR_KEYWORDS r).map Prod.fst).Nodup) ∧
    ((score_resume "own own").total_keywords_matched = 1) ∧
    ((roles.map fun r =>
        (((score_resume "own own").matchRecords r).map fun m => m.2.2).sum).sum = 2) := by
  refine ⟨?_, ?_, by decide, by decide⟩
  · have hm : ∀ r : Role, (matches_of (preprocess_text text.toList) r).length =
        ((ROLECOLOR_KEYWORDS r).filter fun kw =>
          decide (0 < countKw (kw.1.toList.map Char.toLower)
            ((preprocess_text text.toList).map Char.toLower))).length :=
      fun r => find_keyword_matches_length (preprocess_text text.toList) (ROLECOLOR_KEYWORDS r)
    show (roles.map fun r => (matches_of (preprocess_text text.toList) r).length).sum = _
    simp only [roles, List.map_cons, List.map_nil, List.sum_cons, List.sum_nil]
    rw [hm Role.Builder, hm Role.Enabler, hm Role.Thriver, hm Role.Supportee]
  · intro r
    cases r <;> decide

/-! ### LaTeX generator (latex_generator.py) -/

/-- `get_color_for_role` (latex_generator.py lines 99-107): dictionary lookup
with default "BuilderColor". -/
def get_color_for_role (role : String) : String :=
  if role = "Builder" then "BuilderColor"
  else if role = "Enabler" then "EnablerColor"
  else if role = "Thriver" then "ThriverColor"
  else if role = "Supportee" then "SupporteeColor"
  else "BuilderColor"

/-- `LATEX_TEMPLATE` (latex_generator.py lines 41-96), transcribed verbatim
(braces written with hex escapes). -/
def LATEX_TEMPLATE : String :=
  "\n\\documentclass[11pt,a4paper]\x7barticle\x7d\n\\usepackage[utf8]\x7binputenc\x7d\n\\usepackage[T1]\x7bfontenc\x7d\n\\usepackage\x7bgeometry\x7d\n\\usepackage\x7benumitem\x7d\n\\usepackage\x7btitlesec\x7d\n\\usepackage\x7bhyperref\x7d\n\\usepackage\x7bxcolor\x7d\n\n% Page margins\n\\geometry\x7bleft=0.75in, right=0.75in, top=0.75in, bottom=0.75in\x7d\n\n% Colors for RoleColor accents\n\\definecolor\x7bBuilderColor\x7d\x7bRGB\x7d\x7b59, 130, 246\x7d\n\\definecolor\x7bEnablerColor\x7d\x7bRGB\x7d\x7b34, 197, 94\x7d\n\\definecolor\x7bThriverColor\x7d\x7bRGB\x7d\x7b249, 115, 22\x7d\n\\definecolor\x7bSupporteeColor\x7d\x7bRGB\x7d\x7b139, 92, 246\x7d\n\n% Section formatting\n\\titleformat\x7b\\section\x7d\x7b\\large\\bfseries\\color\x7b<<ROLE_COLOR>>\x7d\x7d\x7b\x7d\x7b0em\x7d\x7b\x7d[\\titlerule]\n\\titlespacing\x7b\\section\x7d\x7b0pt\x7d\x7b12pt\x7d\x7b6pt\x7d\n\n% Remove page numbers\n\\pagenumbering\x7bgobble\x7d\n\n% Custom commands\n\\newcommand\x7b\\resumeitem\x7d[1]\x7b\\item #1\x7d\n\\newcommand\x7b\\rolecolorbadge\x7d[1]\x7b\\textcolor\x7b<<ROLE_COLOR>>\x7d\x7b\\textbf\x7b[#1]\x7d\x7d\x7d\n\n\\begin\x7bdocument\x7d\n\n% Header\n\\begin\x7bcenter\x7d\n    \x7b\\LARGE\\bfseries <<NAME>>\x7d\\\\[4pt]\n    <<CONTACT_INFO>>\n\\end\x7bcenter\x7d\n\n% Professional Summary with RoleColor Badge\n\\section\x7bProfessional Summary \\rolecolorbadge\x7b<<DOMINANT_ROLE>>\x7d\x7d\n<<SUMMARY>>\n\n% Experience\n\\section\x7bExperience\x7d\n<<EXPERIENCE>>\n\n% Skills\n\\section\x7bSkills\x7d\n<<SKILLS>>\n\n% Education\n\\section\x7bEducation\x7d\n<<EDUCATION>>\n\n\\end\x7bdocument\x7d\n"

/-- The template as a character list. -/
def latexTemplateList : List Char := LATEX_TEMPLATE.toList

/-- Placeholder token `<<ROLE_COLOR>>`. -/
def rcTok : List Char := "<<ROLE_COLOR>>".toList

/-- Placeholder token `<<NAME>>`. -/
def nameTok : List Char := "<<NAME>>".toList

/-- Placeholder token `<<CONTACT_INFO>>`. -/
def contactTok : List Char := "<<CONTACT_INFO>>".toList

/-- Placeholder token `<<DOMINANT_ROLE>>`. -/
def domTok : List Char := "<<DOMINANT_ROLE>>".toList

/-- Placeholder token `<<SUMMARY>>`. -/
def sumTok : List Char := "<<SUMMARY>>".toList

/-- Placeholder token `<<EXPERIENCE>>`. -/
def expTok : List Char := "<<EXPERIENCE>>".toList

/-- Placeholder token `<<SKILLS>>`. -/
def skillsTok : List Char := "<<SKILLS>>".toList

/-- Placeholder token `<<EDUCATION>>`. -/
def eduTok : List Char := "<<EDUCATION>>".toList

/-- All placeholder tokens of the template. -/
def placeholderToks : List (List Char) :=
  [rcTok, nameTok, contactTok, domTok, sumTok, expTok, skillsTok, eduTok]

/-- Literal template text between placeholder occurrences (segment 0). -/
def tseg0 : List Char := "\n\\documentclass[11pt,a4paper]\x7barticle\x7d\n\\usepackage[utf8]\x7binputenc\x7d\n\\usepackage[T1]\x7bfontenc\x7d\n\\usepackage\x7bgeometry\x7d\n\\usepackage\x7benumitem\x7d\n\\usepackage\x7btitlesec\x7d\n\\usepackage\x7bhyperref\x7d\n\\usepackage\x7bxcolor\x7d\n\n% Page margins\n\\geometry\x7bleft=0.75in, right=0.75in, top=0.75in, bottom=0.75in\x7d\n\n% Colors for RoleColor accents\n\\definecolor\x7bBuilderColor\x7d\x7bRGB\x7d\x7b59, 130, 246\x7d\n\\definecolor\x7bEnablerColor\x7d\x7bRGB\x7d\x7b34, 197, 94\x7d\n\\definecolor\x7bThriverColor\x7d\x7bRGB\x7d\x7b249, 115, 22\x7d\n\\definecolor\x7bSupporteeColor\x7d\x7bRGB\x7d\x7b139, 92, 246\x7d\n\n% Section formatting\n\\titleformat\x7b\\section\x7d\x7b\\large\\bfseries\\color\x7b".toList

/-- Literal template text between placeholder occurrences (segment 1). -/
def tseg1 : List Char := "\x7d\x7d\x7b\x7d\x7b0em\x7d\x7b\x7d[\\titlerule]\n\\titlespacing\x7b\\section\x7d\x7b0pt\x7d\x7b12pt\x7d\x7b6pt\x7d\n\n% Remove page numbers\n\\pagenumbering\x7bgobble\x7d\n\n% Custom commands\n\\newcommand\x7b\\resumeitem\x7d[1]\x7b\\item #1\x7d\n\\newcommand\x7b\\rolecolorbadge\x7d[1]\x7b\\textcolor\x7b".toList

/-- Literal template text between placeholder occurrences (segment 2). -/
def tseg2 : List Char := "\x7d\x7b\\textbf\x7b[#1]\x7d\x7d\x7d\n\n\\begin\x7bdocument\x7d\n\n% Header\n\\begin\x7bcenter\x7d\n    \x7b\\LARGE\\bfseries ".toList

/-- Literal template text between placeholder occurrences (segment 3). -/
def tseg3 : List Char := "\x7d\\\\[4pt]\n    ".toList

/-- Literal template text between placeholder occurrences (segment 4). -/
def tseg4 : List Char := "\n\\end\x7bcenter\x7d\n\n% Professional Summary with RoleColor Badge\n\\section\x7bProfessional Summary \\rolecolorbadge\x7b".toList

/-- Literal template text between placeholder occurrences (segment 5). -/
def tseg5 : List Char := "\x7d\x7d\n".toList

/-- Literal template text between placeholder occurrences (segment 6). -/
def tseg6 : List Char := "\n\n% Experience\n\\section\x7bExperience\x7d\n".toList

/-- Literal template text between placeholder occurrences (segment 7). -/
def tseg7 : List Char := "\n\n% Skills\n\\section\x7bSkills\x7d\n".toList

/-- Literal template text between placeholder occurrences (segment 8). -/
def tseg8 : List Char := "\n\n% Education\n\\section\x7bEducation\x7d\n".toList

/-- Literal template text between placeholder occurrences (segment 9). -/
def tseg9 : List Char := "\n\n\\end\x7bdocument\x7d\n".toList

/-- Line opening a bulleted list (latex_generator.py line 220). -/
def beginItemize : List Char := "\\begin\x7bitemize\x7d[leftmargin=*]".toList

/-- Line closing a bulleted list (latex_generator.py lines 225/229). -/
def endItemize : List Char := "\\end\x7bitemize\x7d".toList

/-- Bullet line rendered as an item (latex_generator.py line 222):
`'\item ' + line.lstrip('-•').strip()`. -/
def itemLine (s : List Char) : List Char :=
  "\\item ".toList ++ stripWs (s.dropWhile fun c => c == '-' || c == '•')

/-- Non-bullet line rendered in bold (latex_generator.py line 227):
`'\textbf{' + line + '}\\\\'`. -/
def textbfLine (s : List Char) : List Char :=
  "\\textbf\x7b".toList ++ (s ++ "\x7d\\\\".toList)

/-- The experience-block formatting loop (latex_generator.py lines 213-229),
including the trailing close of a still-open bulleted list (lines 228-229):
the `[]` case with `inIt = true` emits the closing line the source appends
after the loop. -/
def formatExpLoop : List (List Char) → Bool → List (List Char)
  | [], inIt => if inIt then [endItemize] else []
  | line :: rest, inIt =>
    if (stripWs line).headD ' ' == '-' || (stripWs line).headD ' ' == '•' then
      (if inIt then [] else [beginItemize]) ++
        (itemLine (stripWs line) :: formatExpLoop rest true)
    else if stripWs line ≠ [] then
      (if inIt then [endItemize] else []) ++
        (textbfLine (stripWs line) :: formatExpLoop rest false)
    else formatExpLoop rest inIt

/-- The formatted experience lines for a raw experience block. -/
def formatExperienceLines (expText : List Char) : List (List Char) :=
  formatExpLoop (splitNl expText) false

/-- `'\n'.join(formatted_exp)` (latex_generator.py line 230). -/
def formatExperience (expText : List Char) : List Char :=
  joinNl (formatExperienceLines expText)

/-- Substitution phase of `generate_latex_from_resume`
(latex_generator.py lines 199-242).  The structured fields are produced by
the external extraction collaborator (out of the verified core, spec section
6); a missing key of the Python `sections` dictionary is `none`.  Each
`.getD` mirrors a `sections.get(key, default)` call, and the experience
branch mirrors the `if exp_text:` emptiness test. -/
def generate_latex_from_resume (name contact experience skills education : Option String)
    (rewritten_summary dominant_role : String) : List Char :=
  let step1 := replaceAll rcTok (get_color_for_role dominant_role).toList latexTemplateList
  let step2 := replaceAll nameTok (name.getD "Your Name").toList step1
  let step3 := replaceAll contactTok
    (contact.getD "email@example.com | (555) 123-4567").toList step2
  let step4 := replaceAll domTok dominant_role.toList step3
  let step5 := replaceAll sumTok rewritten_summary.toList step4
  let expText := (experience.getD "").toList
  let step6 :=
    if expText ≠ [] then replaceAll expTok (formatExperience expText) step5
    else replaceAll expTok "Experience details here".toList step5
  let step7 := replaceAll skillsTok (skills.getD "Skills here").toList step6
  replaceAll eduTok (education.getD "Education details here").toList step7

/-- C9: `get_color_for_role` is total: each archetype label maps to its own
accent colour, the four accents are pairwise distinct, and every other
string (including the empty string) falls back to "BuilderColor". -/
theorem claim9_color_total :
    (get_color_for_role "Builder" = "BuilderColor" ∧
     get_color_for_role "Enabler" = "EnablerColor" ∧
     get_color_for_role "Thriver" = "ThriverColor" ∧
     get_color_for_role "Supportee" = "SupporteeColor") ∧
    (["BuilderColor", "EnablerColor", "ThriverColor", "SupporteeColor"] :
      List String).Nodup ∧
    (∀ role : String,
      role ∉ (["Builder", "Enabler", "Thriver", "Supportee"] : List String) →
      get_color_for_role role = "BuilderColor") := by
  refine ⟨by decide, by decide, ?_⟩
  intro role h
  unfold get_color_for_role
  split_ifs with h1 h2 h3 h4
  · exact absurd (by rw [h1]; decide) h
  · exact absurd (by rw [h2]; decide) h
  · exact absurd (by rw [h3]; decide) h
  · exact absurd (by rw [h4]; decide) h
  · rfl

/-- Witness for C9 at the empty string. -/
theorem claim9_color_total_witness :
    ("" : String) ∉ (["Builder", "Enabler", "Thriver", "Supportee"] : List String) ∧
      get_color_for_role "" = "BuilderColor" :=
  ⟨by decide, claim9_color_total.2.2 "" (by decide)⟩

/-! ### C8: bulleted-list grouping is balanced -/

/-- Character at index 1 of an item line is always `i`. -/
theorem itemLine_get1 (s : List Char) : (itemLine s)[1]? = some 'i' := by
  unfold itemLine
  rw [List.getElem?_append, if_pos (by decide)]
  decide

/-- Character at index 1 of a bold line is always `t`. -/
theorem textbfLine_get1 (s : List Char) : (textbfLine s)[1]? = some 't' := by
  unfold textbfLine
  rw [List.getElem?_append, if_pos (by decide)]
  decide

/-- An item line is never the list-opening line. -/
theorem itemLine_ne_begin (s : List Char) : itemLine s ≠ beginItemize := by
  intro h
  have h1 := congrArg (fun l => l[1]?) h
  simp only [itemLine_get1] at h1
  exact absurd h1 (by decide)

/-- An item line is never the list-closing line. -/
theorem itemLine_ne_end (s : List Char) : itemLine s ≠ endItemize := by
  intro h
  have h1 := congrArg (fun l => l[1]?) h
  simp only [itemLine_get1] at h1
  exact absurd h1 (by decide)

/-- A bold line is never the list-opening line. -/
theorem textbfLine_ne_begin (s : List Char) : textbfLine s ≠ beginItemize := by
  intro h
  have h1 := congrArg (fun l => l[1]?) h
  simp only [textbfLine_get1] at h1
  exact absurd h1 (by decide)

/-- A bold line is never the list-closing line. -/
theorem textbfLine_ne_end (s : List Char) : textbfLine s ≠ endItemize := by
  intro h
  have h1 := congrArg (fun l => l[1]?) h
  simp only [textbfLine_get1] at h1
  exact absurd h1 (by decide)

/-- Structural scan of the emitted lines: list-opening lines only at depth 0,
list-closing lines only at depth 1, final depth 0 — that is, the bulleted
regions are balanced, properly nested and never nested inside each other. -/
def scanOk : List (List Char) → Nat → Bool
  | [], d => d == 0
  | l :: rest, d =>
    if l = beginItemize then (d == 0) && scanOk rest 1
    else if l = endItemize then (d == 1) && scanOk rest 0
    else scanOk rest d

/-- The formatting loop always produces a balanced, properly nested line
sequence, given the pending-region flag as the starting depth. -/
theorem scanOk_formatExpLoop (lines : List (List Char)) :
    ∀ b : Bool, scanOk (formatExpLoop lines b) (if b then 1 else 0) = true := by
  induction lines with
  | nil => intro b; cases b <;> decide
  | cons line rest ih =>
    intro b
    by_cases hbul : ((stripWs line).headD ' ' == '-' || (stripWs line).headD ' ' == '•') = true
    · cases b
      · show scanOk (formatExpLoop (line :: rest) false) 0 = true
        simp only [formatExpLoop, if_pos hbul, if_neg (Bool.false_ne_true), List.nil_append,
          List.cons_append, List.append_nil]
        show scanOk (beginItemize :: itemLine (stripWs line) :: formatExpLoop rest true) 0 = true
        unfold scanOk
        rw [if_pos rfl]
        unfold scanOk
        rw [if_neg (itemLine_ne_begin _), if_neg (itemLine_ne_end _)]
        simpa using ih true
      · show scanOk (formatExpLoop (line :: rest) true) 1 = true
        simp only [formatExpLoop, if_pos hbul]
        show scanOk (itemLine (stripWs line) :: formatExpLoop rest true) 1 = true
        unfold scanOk
        rw [if_neg (itemLine_ne_begin _), if_neg (itemLine_ne_end _)]
        simpa using ih true
    · by_cases hemp : stripWs line ≠ []
      · cases b
        · show scanOk (formatExpLoop (line :: rest) false) 0 = true
          simp only [formatExpLoop, if_neg hbul, if_pos hemp]
          show scanOk (textbfLine (stripWs line) :: formatExpLoop rest false) 0 = true
          unfold scanOk
          rw [if_neg (textbfLine_ne_begin _), if_neg (textbfLine_ne_end _)]
          simpa using ih false
        · show scanOk (formatExpLoop (line :: rest) true) 1 = true
          simp only [formatExpLoop, if_neg hbul, if_pos hemp]
          show scanOk (endItemize :: textbfLine (stripWs line) :: formatExpLoop rest false) 1 = true
          unfold scanOk
          rw [if_neg (by decide : ¬ endItemize = beginItemize), if_pos rfl]
          unfold scanOk
          rw [if_neg (textbfLine_ne_begin _), if_neg (textbfLine_ne_end _)]
          simpa using ih false
      · show scanOk (formatExpLoop (line :: rest) _) _ = true
        simp only [formatExpLoop, if_neg hbul, if_neg hemp]
        exact ih b

/-- The formatting loop emits exactly one extra closing line when a region is
pending, and otherwise equal numbers of opening and closing lines. -/
theorem count_formatExpLoop (lines : List (List Char)) :
    ∀ b : Bool, (formatExpLoop lines b).count endItemize =
      (formatExpLoop lines b).count beginItemize + (if b then 1 else 0) := by
  induction lines with
  | nil => intro b; cases b <;> decide
  | cons line rest ih =>
    intro b
    by_cases hbul : ((stripWs line).headD ' ' == '-' || (stripWs line).headD ' ' == '•') = true
    · cases b <;>
        simp only [formatExpLoop, if_pos hbul, if_neg (Bool.false_ne_true), if_pos rfl,
          List.nil_append, List.cons_append, List.append_nil, List.count_cons,
          beq_iff_eq, itemLine_ne_begin, itemLine_ne_end, if_false,
          (by decide : ¬ beginItemize = endItemize), (by decide : (beginItemize = beginItemize)),
          if_true, ih true]
    · by_cases hemp : stripWs line ≠ []
      · cases b <;>
          simp only [formatExpLoop, if_neg hbul, if_pos hemp, if_neg (Bool.false_ne_true),
            if_pos rfl, List.nil_append, List.cons_append, List.append_nil, List.count_cons,
            beq_iff_eq, textbfLine_ne_begin, textbfLine_ne_end, if_false,
            (by decide : ¬ endItemize = beginItemize), (by decide : (endItemize = endItemize)),
            if_true, ih false]
      · simp only [formatExpLoop, if_neg hbul, if_neg hemp]
        exact ih b

/-- C8: for every experience block, the emitted lines open a bulleted region
only at depth 0 and close it only at depth 1, ending at depth 0 (no dangling
unclosed region, no nesting), and the numbers of opening and closing lines
are equal. -/
theorem claim8_bullet_regions_balanced (expText : List Char) :
    scanOk (formatExperienceLines expText) 0 = true ∧
      (formatExperienceLines expText).count beginItemize =
        (formatExperienceLines expText).count endItemize := by
  constructor
  · simpa using scanOk_formatExpLoop (splitNl expText) false
  · have h := count_formatExpLoop (splitNl expText) false
    simp only [if_neg (Bool.false_ne_true), Nat.add_zero] at h
    exact h.symm

/-! ### C3: placeholder substitution -/

/-- A list is a Boolean prefix of itself followed by anything. -/
theorem isPrefixOf_append_self : ∀ (p t : List Char), p.isPrefixOf (p ++ t) = true := by
  intro p
  induction p with
  | nil => intro t; simp [List.isPrefixOf]
  | cons a as ih => intro t; simp [List.isPrefixOf, ih]

/-- `replaceAll` leaves a string without occurrences of the pattern
unchanged. -/
theorem replaceAll_of_hasSub_false (pat repl : List Char) :
    ∀ t, hasSub pat t = false → replaceAll pat repl t = t := by
  intro t
  induction t with
  | nil => intro _; simp [replaceAll]
  | cons c rest ih =>
    intro h
    simp only [hasSub, Bool.or_eq_false_iff] at h
    simp only [replaceAll]
    rw [dif_neg]
    · rw [ih h.2]
    · rintro ⟨hne, hpre⟩
      rw [h.1] at hpre
      exact absurd hpre (by decide)

/-- `replaceAll` skips over a block that does not contain the head character
of the pattern. -/
theorem replaceAll_append_left (pat repl : List Char) (hh : pat.headD ' ' = '<') :
    ∀ (v t : List Char), '<' ∉ v →
      replaceAll pat repl (v ++ t) = v ++ replaceAll pat repl t := by
  intro v
  induction v with
  | nil => intro t _; simp
  | cons c v ih =>
    intro t hv
    have hc : ¬ ('<' = c) := fun hc => hv (by rw [hc]; exact List.mem_cons_self c v)
    obtain ⟨p0, pr, hpat⟩ : ∃ p0 pr, pat = p0 :: pr := by
      cases pat with
      | nil => exact absurd hh (by decide)
      | cons a b => exact ⟨a, b, rfl⟩
    have hp0 : p0 = '<' := by rw [hpat] at hh; simpa using hh
    show replaceAll pat repl (c :: (v ++ t)) = c :: (v ++ replaceAll pat repl t)
    simp only [replaceAll]
    rw [dif_neg]
    · rw [ih t (fun hm => hv (List.mem_cons_of_mem c hm))]
    · rintro ⟨-, hpre⟩
      rw [hpat, hp0] at hpre
      simp only [List.isPrefixOf, Bool.and_eq_true, beq_iff_eq] at hpre
      exact hc hpre.1

/-- `replaceAll` fires at an occurrence of the pattern at the head. -/
theorem replaceAll_cons_self (pat repl t : List Char) (hne : pat ≠ []) :
    replaceAll pat repl (pat ++ t) = repl ++ replaceAll pat repl t := by
  obtain ⟨q, qs, hpat⟩ : ∃ q qs, pat = q :: qs := by
    cases pat with
    | nil => exact absurd rfl hne
    | cons a b => exact ⟨a, b, rfl⟩
  subst hpat
  show replaceAll (q :: qs) repl (q :: (qs ++ t)) = _
  simp only [replaceAll]
  rw [dif_pos]
  · rw [show q :: (qs ++ t) = (q :: qs) ++ t from rfl, List.drop_left]
  · refine ⟨by simp, ?_⟩
    rw [show q :: (qs ++ t) = (q :: qs) ++ t from rfl]
    exact isPrefixOf_append_self _ _

/-- One-placeholder substitution step: with a `<`-free prefix and a
pattern-free tail, exactly the middle occurrence is replaced. -/
theorem replace_seg (pat repl pre post : List Char) (hh : pat.headD ' ' = '<')
    (hpre : '<' ∉ pre) (hpost : hasSub pat post = false) :
    replaceAll pat repl (pre ++ (pat ++ post)) = pre ++ (repl ++ post) := by
  have hne : pat ≠ [] := by
    cases pat with
    | nil => exact absurd hh (by decide)
    | cons a b => simp
  rw [replaceAll_append_left pat repl hh pre _ hpre,
    replaceAll_cons_self pat repl post hne,
    replaceAll_of_hasSub_false pat repl post hpost]

/-- Two-placeholder substitution step (for the doubly-occurring colour
token). -/
theorem replace_seg2 (pat repl pre mid post : List Char) (hh : pat.headD ' ' = '<')
    (hpre : '<' ∉ pre) (hmid : '<' ∉ mid) (hpost : hasSub pat post = false) :
    replaceAll pat repl (pre ++ (pat ++ (mid ++ (pat ++ post)))) =
      pre ++ (repl ++ (mid ++ (repl ++ post))) := by
  have hne : pat ≠ [] := by
    cases pat with
    | nil => exact absurd hh (by decide)
    | cons a b => simp
  rw [replaceAll_append_left pat repl hh pre _ hpre,
    replaceAll_cons_self pat repl _ hne,
    replaceAll_append_left pat repl hh mid _ hmid,
    replaceAll_cons_self pat repl post hne,
    replaceAll_of_hasSub_false pat repl post hpost]

/-- A pattern occurs in any string of the shape `a ++ pat ++ b`. -/
theorem hasSub_append_mid (pat : List Char) (hne : pat ≠ []) :
    ∀ a b : List Char, hasSub pat (a ++ (pat ++ b)) = true := by
  intro a
  induction a with
  | nil =>
    intro b
    obtain ⟨q, qs, hpat⟩ : ∃ q qs, pat = q :: qs := by
      cases pat with
      | nil => exact absurd rfl hne
      | cons a b => exact ⟨a, b, rfl⟩
    subst hpat
    show hasSub (q :: qs) (q :: (qs ++ b)) = true
    simp only [hasSub]
    rw [show q :: (qs ++ b) = (q :: qs) ++ b from rfl, isPrefixOf_append_self]
    simp
  | cons c a ih =>
    intro b
    show hasSub pat (c :: (a ++ (pat ++ b))) = true
    simp only [hasSub]
    rw [ih b]
    simp

/-- A string without the pattern's head character contains no occurrence of
the pattern. -/
theorem hasSub_false_of_head_notMem (pat : List Char) (hh : pat.headD ' ' = '<') :
    ∀ t : List Char, '<' ∉ t → hasSub pat t = false := by
  intro t
  induction t with
  | nil =>
    intro _
    cases pat with
    | nil => exact absurd hh (by decide)
    | cons a b => simp [hasSub]
  | cons c rest ih =>
    intro hm
    obtain ⟨p0, pr, hpat⟩ : ∃ p0 pr, pat = p0 :: pr := by
      cases pat with
      | nil => exact absurd hh (by decide)
      | cons a b => exact ⟨a, b, rfl⟩
    have hp0 : p0 = '<' := by rw [hpat] at hh; simpa using hh
    have hc : ¬ (p0 = c) := by
      rw [hp0]
      exact fun hc => hm (by rw [hc]; exact List.mem_cons_self c rest)
    simp only [hasSub, Bool.or_eq_false_iff]
    constructor
    · rw [hpat]
      simp only [List.isPrefixOf, Bool.and_eq_false_iff]
      left
      simpa using hc
    · exact ih (fun hm2 => hm (List.mem_cons_of_mem c hm2))

/-- Template tail from segment 8 on. -/
def tRest8 : List Char := tseg8 ++ (eduTok ++ tseg9)

/-- Template tail from segment 7 on. -/
def tRest7 : List Char := tseg7 ++ (skillsTok ++ tRest8)

/-- Template tail from segment 6 on. -/
def tRest6 : List Char := tseg6 ++ (expTok ++ tRest7)

/-- Template tail from segment 5 on. -/
def tRest5 : List Char := tseg5 ++ (sumTok ++ tRest6)

/-- Template tail from segment 4 on. -/
def tRest4 : List Char := tseg4 ++ (domTok ++ tRest5)

/-- Template tail from segment 3 on. -/
def tRest3 : List Char := tseg3 ++ (contactTok ++ tRest4)

/-- Template tail from segment 2 on. -/
def tRest2 : List Char := tseg2 ++ (nameTok ++ tRest3)

/-- Tail-recursive character-list equality, used so that very long concrete
lists can be compared by kernel reduction with constant stack depth. -/
def listEqTR : List Char → List Char → Bool
  | [], [] => true
  | a :: as, b :: bs => if a = b then listEqTR as bs else false
  | _ :: _, [] => false
  | [], _ :: _ => false

/-- Soundness of the tail-recursive equality check. -/
theorem listEqTR_eq : ∀ l1 l2 : List Char, listEqTR l1 l2 = true → l1 = l2 := by
  intro l1
  induction l1 with
  | nil =>
    intro l2 h
    cases l2 with
    | nil => rfl
    | cons b bs => simp [listEqTR] at h
  | cons a as ih =>
    intro l2 h
    cases l2 with
    | nil => simp [listEqTR] at h
    | cons b bs =>
      by_cases hab : a = b
      · simp only [listEqTR, if_pos hab] at h
        rw [hab, ih bs h]
      · simp only [listEqTR, if_neg hab] at h
        exact absurd h (by decide)

set_option maxRecDepth 6000 in
/-- The template decomposes into its literal segments and its nine
placeholder occurrences, in order. -/
theorem latexTemplate_decomp :
    latexTemplateList = tseg0 ++ (rcTok ++ (tseg1 ++ (rcTok ++ tRest2))) :=
  listEqTR_eq _ _ (by decide)

/-- The literal template segments contain no `<` character. -/
theorem lt_notMem_tseg0 : '<' ∉ tseg0 := by decide

/-- Segment 1 contains no `<` character. -/
theorem lt_notMem_tseg1 : '<' ∉ tseg1 := by decide

/-- Segment 2 contains no `<` character. -/
theorem lt_notMem_tseg2 : '<' ∉ tseg2 := by decide

/-- Segment 3 contains no `<` character. -/
theorem lt_notMem_tseg3 : '<' ∉ tseg3 := by decide

/-- Segment 4 contains no `<` character. -/
theorem lt_notMem_tseg4 : '<' ∉ tseg4 := by decide

/-- Segment 5 contains no `<` character. -/
theorem lt_notMem_tseg5 : '<' ∉ tseg5 := by decide

/-- Segment 6 contains no `<` character. -/
theorem lt_notMem_tseg6 : '<' ∉ tseg6 := by decide

/-- Segment 7 contains no `<` character. -/
theorem lt_notMem_tseg7 : '<' ∉ tseg7 := by decide

/-- Segment 8 contains no `<` character. -/
theorem lt_notMem_tseg8 : '<' ∉ tseg8 := by decide

/-- Segment 9 contains no `<` character. -/
theorem lt_notMem_tseg9 : '<' ∉ tseg9 := by decide

/-- The colour token does not occur after its second occurrence. -/
theorem hasSub_rcTok_tRest2 : hasSub rcTok tRest2 = false := by decide

/-- The name token does not occur after its occurrence. -/
theorem hasSub_nameTok_tRest3 : hasSub nameTok tRest3 = false := by decide

/-- The contact token does not occur after its occurrence. -/
theorem hasSub_contactTok_tRest4 : hasSub contactTok tRest4 = false := by decide

/-- The dominant-role token does not occur after its occurrence. -/
theorem hasSub_domTok_tRest5 : hasSub domTok tRest5 = false := by decide

/-- The summary token does not occur after its occurrence. -/
theorem hasSub_sumTok_tRest6 : hasSub sumTok tRest6 = false := by decide

/-- The experience token does not occur after its occurrence. -/
theorem hasSub_expTok_tRest7 : hasSub expTok tRest7 = false := by decide

/-- The skills token does not occur after its occurrence. -/
theorem hasSub_skillsTok_tRest8 : hasSub skillsTok tRest8 = false := by decide

/-- The education token does not occur after its occurrence. -/
theorem hasSub_eduTok_tseg9 : hasSub eduTok tseg9 = false := by decide

/-- The chain of the eight `str.replace` calls of
`generate_latex_from_resume`, evaluated: when none of the substituted values
for the first seven placeholders contains `<`, every placeholder occurrence
is replaced exactly once, in template order (the education value `vE` is
unconstrained because its placeholder is replaced last). -/
theorem render_chain (c vN vC vR vS vX vK vE : List Char)
    (hcv : '<' ∉ c) (hn : '<' ∉ vN) (hco : '<' ∉ vC) (hr : '<' ∉ vR)
    (hs : '<' ∉ vS) (hx : '<' ∉ vX) (hk : '<' ∉ vK) :
    replaceAll eduTok vE (replaceAll skillsTok vK (replaceAll expTok vX
      (replaceAll sumTok vS (replaceAll domTok vR (replaceAll contactTok vC
        (replaceAll nameTok vN (replaceAll rcTok c latexTemplateList))))))) =
    tseg0 ++ (c ++ (tseg1 ++ (c ++ (tseg2 ++ (vN ++ (tseg3 ++ (vC ++ (tseg4 ++ (vR ++
      (tseg5 ++ (vS ++ (tseg6 ++ (vX ++ (tseg7 ++ (vK ++ (tseg8 ++ (vE ++
        tseg9))))))))))))))))) := by
  have h1 : replaceAll rcTok c latexTemplateList =
      tseg0 ++ (c ++ (tseg1 ++ (c ++ tRest2))) := by
    rw [latexTemplate_decomp]
    exact replace_seg2 rcTok c tseg0 tseg1 tRest2 (by decide) lt_notMem_tseg0
      lt_notMem_tseg1 hasSub_rcTok_tRest2
  have e2 : tseg0 ++ (c ++ (tseg1 ++ (c ++ tRest2))) =
      (tseg0 ++ (c ++ (tseg1 ++ (c ++ tseg2)))) ++ (nameTok ++ tRest3) := by
    simp [tRest2, List.append_assoc]
  have h2 : replaceAll nameTok vN (replaceAll rcTok c latexTemplateList) =
      (tseg0 ++ (c ++ (tseg1 ++ (c ++ tseg2)))) ++ (vN ++ tRest3) := by
    rw [h1, e2]
    exact replace_seg nameTok vN _ tRest3 (by decide)
      (by simp [List.mem_append, hcv, lt_notMem_tseg0,
        lt_notMem_tseg1, lt_notMem_tseg2])
      hasSub_nameTok_tRest3
  have e3 : (tseg0 ++ (c ++ (tseg1 ++ (c ++ tseg2)))) ++ (vN ++ tRest3) =
      ((tseg0 ++ (c ++ (tseg1 ++ (c ++ tseg2)))) ++ (vN ++ tseg3)) ++
        (contactTok ++ tRest4) := by
    simp [tRest3, List.append_assoc]
  have h3 : replaceAll contactTok vC (replaceAll nameTok vN
      (replaceAll rcTok c latexTemplateList)) =
      ((tseg0 ++ (c ++ (tseg1 ++ (c ++ tseg2)))) ++ (vN ++ tseg3)) ++ (vC ++ tRest4) := by
    rw [h2, e3]
    exact replace_seg contactTok vC _ tRest4 (by decide)
      (by simp [List.mem_append, hcv, hn, lt_notMem_tseg0,
        lt_notMem_tseg1, lt_notMem_tseg2,
        lt_notMem_tseg3])
      hasSub_contactTok_tRest4
  have e4 : ((tseg0 ++ (c ++ (tseg1 ++ (c ++ tseg2)))) ++ (vN ++ tseg3)) ++ (vC ++ tRest4) =
      (((tseg0 ++ (c ++ (tseg1 ++ (c ++ tseg2)))) ++ (vN ++ tseg3)) ++ (vC ++ tseg4)) ++
        (domTok ++ tRest5) := by
    simp [tRest4, List.append_assoc]
  have h4 : replaceAll domTok vR (replaceAll contactTok vC (replaceAll nameTok vN
      (replaceAll rcTok c latexTemplateList))) =
      (((tseg0 ++ (c ++ (tseg1 ++ (c ++ tseg2)))) ++ (vN ++ tseg3)) ++ (vC ++ tseg4)) ++
        (vR ++ tRest5) := by
    rw [h3, e4]
    exact replace_seg domTok vR _ tRest5 (by decide)
      (by simp [List.mem_append, hcv, hn, hco, lt_notMem_tseg0,
        lt_notMem_tseg1, lt_notMem_tseg2,
        lt_notMem_tseg3, lt_notMem_tseg4])
      hasSub_domTok_tRest5
  have e5 : (((tseg0 ++ (c ++ (tseg1 ++ (c ++ tseg2)))) ++ (vN ++ tseg3)) ++ (vC ++ tseg4)) ++
      (vR ++ tRest5) =
      ((((tseg0 ++ (c ++ (tseg1 ++ (c ++ tseg2)))) ++ (vN ++ tseg3)) ++ (vC ++ tseg4)) ++
        (vR ++ tseg5)) ++ (sumTok ++ tRest6) := by
    simp [tRest5, List.append_assoc]
  have h5 : replaceAll sumTok vS (replaceAll domTok vR (replaceAll contactTok vC
      (replaceAll nameTok vN (replaceAll rcTok c latexTemplateList)))) =
      ((((tseg0 ++ (c ++ (tseg1 ++ (c ++ tseg2)))) ++ (vN ++ tseg3)) ++ (vC ++ tseg4)) ++
        (vR ++ tseg5)) ++ (vS ++ tRest6) := by
    rw [h4, e5]
    exact replace_seg sumTok vS _ tRest6 (by decide)
      (by simp [List.mem_append, hcv, hn, hco, hr, lt_notMem_tseg0,
        lt_notMem_tseg1, lt_notMem_tseg2,
        lt_notMem_tseg3, lt_notMem_tseg4,
        lt_notMem_tseg5])
      hasSub_sumTok_tRest6
  have e6 : ((((tseg0 ++ (c ++ (tseg1 ++ (c ++ tseg2)))) ++ (vN ++ tseg3)) ++ (vC ++ tseg4)) ++
      (vR ++ tseg5)) ++ (vS ++ tRest6) =
      (((((tseg0 ++ (c ++ (tseg1 ++ (c ++ tseg2)))) ++ (vN ++ tseg3)) ++ (vC ++ tseg4)) ++
        (vR ++ tseg5)) ++ (vS ++ tseg6)) ++ (expTok ++ tRest7) := by
    simp [tRest6, List.append_assoc]
  have h6 : replaceAll expTok vX (replaceAll sumTok vS (replaceAll domTok vR
      (replaceAll contactTok vC (replaceAll nameTok vN
        (replaceAll rcTok c latexTemplateList))))) =
      (((((tseg0 ++ (c ++ (tseg1 ++ (c ++ tseg2)))) ++ (vN ++ tseg3)) ++ (vC ++ tseg4)) ++
        (vR ++ tseg5)) ++ (vS ++ tseg6)) ++ (vX ++ tRest7) := by
    rw [h5, e6]
    exact replace_seg expTok vX _ tRest7 (by decide)
      (by simp [List.mem_append, hcv, hn, hco, hr, hs, lt_notMem_tseg0,
        lt_notMem_tseg1, lt_notMem_tseg2,
        lt_notMem_tseg3, lt_notMem_tseg4,
        lt_notMem_tseg5, lt_notMem_tseg6])
      hasSub_expTok_tRest7
  have e7 : (((((tseg0 ++ (c ++ (tseg1 ++ (c ++ tseg2)))) ++ (vN ++ tseg3)) ++ (vC ++ tseg4)) ++
      (vR ++ tseg5)) ++ (vS ++ tseg6)) ++ (vX ++ tRest7) =
      ((((((tseg0 ++ (c ++ (tseg1 ++ (c ++ tseg2)))) ++ (vN ++ tseg3)) ++ (vC ++ tseg4)) ++
        (vR ++ tseg5)) ++ (vS ++ tseg6)) ++ (vX ++ tseg7)) ++ (skillsTok ++ tRest8) := by
    simp [tRest7, List.append_assoc]
  have h7 : replaceAll skillsTok vK (replaceAll expTok vX (replaceAll sumTok vS
      (replaceAll domTok vR (replaceAll contactTok vC (replaceAll nameTok vN
        (replaceAll rcTok c latexTemplateList)))))) =
      ((((((tseg0 ++ (c ++ (tseg1 ++ (c ++ tseg2)))) ++ (vN ++ tseg3)) ++ (vC ++ tseg4)) ++
        (vR ++ tseg5)) ++ (vS ++ tseg6)) ++ (vX ++ tseg7)) ++ (vK ++ tRest8) := by
    rw [h6, e7]
    exact replace_seg skillsTok vK _ tRest8 (by decide)
      (by simp [List.mem_append, hcv, hn, hco, hr, hs, hx, lt_notMem_tseg0,
        lt_notMem_tseg1, lt_notMem_tseg2,
        lt_notMem_tseg3, lt_notMem_tseg4,
        lt_notMem_tseg5, lt_notMem_tseg6,
        lt_notMem_tseg7])
      hasSub_skillsTok_tRest8
  have e8 : ((((((tseg0 ++ (c ++ (tseg1 ++ (c ++ tseg2)))) ++ (vN ++ tseg3)) ++ (vC ++ tseg4)) ++
      (vR ++ tseg5)) ++ (vS ++ tseg6)) ++ (vX ++ tseg7)) ++ (vK ++ tRest8) =
      (((((((tseg0 ++ (c ++ (tseg1 ++ (c ++ tseg2)))) ++ (vN ++ tseg3)) ++ (vC ++ tseg4)) ++
        (vR ++ tseg5)) ++ (vS ++ tseg6)) ++ (vX ++ tseg7)) ++ (vK ++ tseg8)) ++
        (eduTok ++ tseg9) := by
    simp [tRest8, List.append_assoc]
  have h8 : replaceAll eduTok vE (replaceAll skillsTok vK (replaceAll expTok vX
      (replaceAll sumTok vS (replaceAll domTok vR (replaceAll contactTok vC
        (replaceAll nameTok vN (replaceAll rcTok c latexTemplateList))))))) =
      (((((((tseg0 ++ (c ++ (tseg1 ++ (c ++ tseg2)))) ++ (vN ++ tseg3)) ++ (vC ++ tseg4)) ++
        (vR ++ tseg5)) ++ (vS ++ tseg6)) ++ (vX ++ tseg7)) ++ (vK ++ tseg8)) ++
        (vE ++ tseg9) := by
    rw [h7, e8]
    exact replace_seg eduTok vE _ tseg9 (by decide)
      (by simp [List.mem_append, hcv, hn, hco, hr, hs, hx, hk, lt_notMem_tseg0,
        lt_notMem_tseg1, lt_notMem_tseg2,
        lt_notMem_tseg3, lt_notMem_tseg4,
        lt_notMem_tseg5, lt_notMem_tseg6,
        lt_notMem_tseg7, lt_notMem_tseg8])
      hasSub_eduTok_tseg9
  rw [h8]
  simp [List.append_assoc]

/-- Lines produced by `splitNl` only contain characters of the input. -/
theorem splitNl_chars : ∀ (v : List Char), ∀ l ∈ splitNl v, ∀ x ∈ l, x ∈ v := by
  intro v
  induction v with
  | nil =>
    intro l hl x hx
    simp [splitNl] at hl
    subst hl
    simp at hx
  | cons c rest ih =>
    intro l hl x hx
    by_cases hc : c = '\n'
    · rw [splitNl, if_pos hc] at hl
      rcases List.mem_cons.mp hl with hl | hl
      · subst hl; simp at hx
      · exact List.mem_cons_of_mem c (ih l hl x hx)
    · rw [splitNl, if_neg hc] at hl
      rcases hsplit : splitNl rest with _ | ⟨h0, t0⟩
      · rw [hsplit] at hl
        simp at hl
        subst hl
        simp at hx
        rw [hx]
        exact List.mem_cons_self c rest
      · rw [hsplit] at hl
        rcases List.mem_cons.mp hl with hl | hl
        · subst hl
          rcases List.mem_cons.mp hx with hx | hx
          · rw [hx]; exact List.mem_cons_self c rest
          · refine List.mem_cons_of_mem c (ih h0 ?_ x hx)
            rw [hsplit]
            exact List.mem_cons_self h0 t0
        · refine List.mem_cons_of_mem c (ih l ?_ x hx)
          rw [hsplit]
          exact List.mem_cons_of_mem h0 hl

/-- `stripWs` only removes characters. -/
theorem stripWs_subset {x : Char} {l : List Char} (h : x ∈ stripWs l) : x ∈ l := by
  unfold stripWs at h
  rw [List.mem_reverse] at h
  have h2 := (List.dropWhile_sublist _).subset h
  rw [List.mem_reverse] at h2
  exact (List.dropWhile_sublist _).subset h2

/-- Characters of an item line: the fixed prefix or characters of the
stripped source line. -/
theorem itemLine_chars {x : Char} {s : List Char} (h : x ∈ itemLine s) :
    x ∈ "\\item ".toList ∨ x ∈ s := by
  unfold itemLine at h
  rcases List.mem_append.mp h with h | h
  · exact Or.inl h
  · exact Or.inr ((List.dropWhile_sublist _).subset (stripWs_subset h))

/-- Characters of a bold line: the fixed delimiters or characters of the
source line. -/
theorem textbfLine_chars {x : Char} {s : List Char} (h : x ∈ textbfLine s) :
    x ∈ "\\textbf\x7b".toList ∨ x ∈ s ∨ x ∈ "\x7d\\\\".toList := by
  unfold textbfLine at h
  rcases List.mem_append.mp h with h | h
  · exact Or.inl h
  · rcases List.mem_append.mp h with h | h
    · exact Or.inr (Or.inl h)
    · exact Or.inr (Or.inr h)

/-- The formatting loop emits no `<` when no input line contains one. -/
theorem formatExpLoop_no_lt : ∀ (lines : List (List Char)) (b : Bool),
    (∀ l ∈ lines, '<' ∉ l) → ∀ out ∈ formatExpLoop lines b, '<' ∉ out := by
  intro lines
  induction lines with
  | nil =>
    intro b _ out hout
    cases b with
    | true =>
      rw [show formatExpLoop [] true = [endItemize] from rfl] at hout
      simp at hout
      subst hout
      decide
    | false =>
      rw [show formatExpLoop [] false = [] from rfl] at hout
      simp at hout
  | cons line rest ih =>
    intro b hl out hout
    have hline : '<' ∉ line := hl line (List.mem_cons_self line rest)
    have hrest : ∀ l ∈ rest, '<' ∉ l := fun l hm => hl l (List.mem_cons_of_mem line hm)
    have hstrip : '<' ∉ stripWs line := fun hm => hline (stripWs_subset hm)
    have hitem : '<' ∉ itemLine (stripWs line) := by
      intro hm
      rcases itemLine_chars hm with h | h
      · exact absurd h (by decide)
      · exact hstrip h
    have htext : '<' ∉ textbfLine (stripWs line) := by
      intro hm
      rcases textbfLine_chars hm with h | h | h
      · exact absurd h (by decide)
      · exact hstrip h
      · exact absurd h (by decide)
    by_cases hbul : ((stripWs line).headD ' ' == '-' || (stripWs line).headD ' ' == '•') = true
    · cases b with
      | true =>
        simp only [formatExpLoop, if_pos hbul] at hout
        simp at hout
        rcases hout with rfl | hout
        · exact hitem
        · exact ih true hrest out hout
      | false =>
        simp only [formatExpLoop, if_pos hbul] at hout
        simp at hout
        rcases hout with rfl | rfl | hout
        · decide
        · exact hitem
        · exact ih true hrest out hout
    · by_cases hemp : stripWs line ≠ []
      · cases b with
        | true =>
          simp only [formatExpLoop, if_neg hbul, if_pos hemp] at hout
          simp at hout
          rcases hout with rfl | rfl | hout
          · decide
          · exact htext
          · exact ih false hrest out hout
        | false =>
          simp only [formatExpLoop, if_neg hbul, if_pos hemp] at hout
          simp at hout
          rcases hout with rfl | hout
          · exact htext
          · exact ih false hrest out hout
      · simp only [formatExpLoop, if_neg hbul, if_neg hemp] at hout
        exact ih b hrest out hout

/-- Joining with newlines introduces no `<`. -/
theorem joinNl_no_lt : ∀ ls : List (List Char), (∀ l ∈ ls, '<' ∉ l) → '<' ∉ joinNl ls := by
  intro ls
  induction ls with
  | nil => intro _; simp [joinNl]
  | cons l ls ih =>
    intro hl
    cases ls with
    | nil =>
      show '<' ∉ l
      exact hl l (List.mem_cons_self l [])
    | cons l2 rest =>
      show '<' ∉ l ++ '\n' :: joinNl (l2 :: rest)
      intro hm
      rcases List.mem_append.mp hm with hm | hm
      · exact hl l (List.mem_cons_self l _) hm
      · rcases List.mem_cons.mp hm with hm | hm
        · exact absurd hm (by decide)
        · exact ih (fun x hx => hl x (List.mem_cons_of_mem l hx)) hm

/-- The formatted experience block contains no `<` when the raw block
contains none. -/
theorem formatExperience_no_lt (v : List Char) (hv : '<' ∉ v) :
    '<' ∉ formatExperience v := by
  unfold formatExperience formatExperienceLines
  refine joinNl_no_lt _ ?_
  refine formatExpLoop_no_lt (splitNl v) false ?_
  intro l hl hm
  exact hv (splitNl_chars v l hl '<' hm)

/-- The colour name substituted for the colour token contains no `<`. -/
theorem get_color_no_lt (role : String) : '<' ∉ (get_color_for_role role).toList := by
  unfold get_color_for_role
  split_ifs <;> decide

/-- Substring occurrences propagate from a suffix. -/
theorem hasSub_append_of_right (pat : List Char) :
    ∀ x y : List Char, hasSub pat y = true → hasSub pat (x ++ y) = true := by
  intro x
  induction x with
  | nil => intro y h; exact h
  | cons c x ih =>
    intro y h
    show hasSub pat (c :: (x ++ y)) = true
    simp only [hasSub]
    rw [ih y h]
    simp

/-- `generate_latex_from_resume` as one substitution chain: the
experience-branch `if` commutes with the substitution. -/
theorem generate_latex_eq_chain (name contact experience skills education : Option String)
    (summary role : String) :
    generate_latex_from_resume name contact experience skills education summary role =
      replaceAll eduTok (education.getD "Education details here").toList
        (replaceAll skillsTok (skills.getD "Skills here").toList
          (replaceAll expTok
            (if (experience.getD "").toList ≠ [] then
              formatExperience (experience.getD "").toList
            else "Experience details here".toList)
            (replaceAll sumTok summary.toList
              (replaceAll domTok role.toList
                (replaceAll contactTok
                  (contact.getD "email@example.com | (555) 123-4567").toList
                  (replaceAll nameTok (name.getD "Your Name").toList
                    (replaceAll rcTok (get_color_for_role role).toList
                      latexTemplateList))))))) := by
  simp only [generate_latex_from_resume]
  split_ifs <;> rfl

/-- C3 (amended): provided none of the substituted values for the first seven
placeholders contains the character `<` (in particular none contains a
placeholder token), rendering replaces every placeholder occurrence exactly
once — a present field is substituted verbatim (even when empty; the
defaults apply only to absent fields, and to an absent or empty experience
block) — and, when the education value is also `<`-free, the output contains
no placeholder token. -/
theorem claim3_substitution_amended (name contact experience skills education : Option String)
    (summary role : String)
    (hn : '<' ∉ (name.getD "Your Name").toList)
    (hc : '<' ∉ (contact.getD "email@example.com | (555) 123-4567").toList)
    (hr : '<' ∉ role.toList)
    (hs : '<' ∉ summary.toList)
    (hx : '<' ∉ (experience.getD "").toList)
    (hk : '<' ∉ (skills.getD "Skills here").toList)
    (he : '<' ∉ (education.getD "Education details here").toList) :
    (generate_latex_from_resume name contact experience skills education summary role =
      tseg0 ++ ((get_color_for_role role).toList ++ (tseg1 ++
        ((get_color_for_role role).toList ++ (tseg2 ++ ((name.getD "Your Name").toList ++
          (tseg3 ++ ((contact.getD "email@example.com | (555) 123-4567").toList ++
            (tseg4 ++ (role.toList ++ (tseg5 ++ (summary.toList ++ (tseg6 ++
              ((if (experience.getD "").toList ≠ [] then
                  formatExperience (experience.getD "").toList
                else "Experience details here".toList) ++ (tseg7 ++
                  ((skills.getD "Skills here").toList ++ (tseg8 ++
                    ((education.getD "Education details here").toList ++
                      tseg9)))))))))))))))))) ∧
    (∀ tok ∈ placeholderToks,
      hasSub tok (generate_latex_from_resume name contact experience skills education
        summary role) = false) := by
  have hxv : '<' ∉ (if (experience.getD "").toList ≠ [] then
      formatExperience (experience.getD "").toList
    else "Experience details here".toList) := by
    split_ifs with hcond
    · exact formatExperience_no_lt _ hx
    · decide
  have heq : generate_latex_from_resume name contact experience skills education summary
      role =
      tseg0 ++ ((get_color_for_role role).toList ++ (tseg1 ++
        ((get_color_for_role role).toList ++ (tseg2 ++ ((name.getD "Your Name").toList ++
          (tseg3 ++ ((contact.getD "email@example.com | (555) 123-4567").toList ++
            (tseg4 ++ (role.toList ++ (tseg5 ++ (summary.toList ++ (tseg6 ++
              ((if (experience.getD "").toList ≠ [] then
                  formatExperience (experience.getD "").toList
                else "Experience details here".toList) ++ (tseg7 ++
                  ((skills.getD "Skills here").toList ++ (tseg8 ++
                    ((education.getD "Education details here").toList ++
                      tseg9))))))))))))))))) := by
    rw [generate_latex_eq_chain]
    exact render_chain (get_color_for_role role).toList (name.getD "Your Name").toList
      (contact.getD "email@example.com | (555) 123-4567").toList role.toList
      summary.toList _ (skills.getD "Skills here").toList
      (education.getD "Education details here").toList
      (get_color_no_lt role) hn hc hr hs hxv hk
  refine ⟨heq, ?_⟩
  have hout : '<' ∉ generate_latex_from_resume name contact experience skills education
      summary role := by
    rw [heq]
    intro hm
    simp only [List.mem_append] at hm
    rcases hm with h | h | h | h | h | h | h | h | h | h | h | h | h | h | h | h | h | h | h
    · exact lt_notMem_tseg0 h
    · exact get_color_no_lt role h
    · exact lt_notMem_tseg1 h
    · exact get_color_no_lt role h
    · exact lt_notMem_tseg2 h
    · exact hn h
    · exact lt_notMem_tseg3 h
    · exact hc h
    · exact lt_notMem_tseg4 h
    · exact hr h
    · exact lt_notMem_tseg5 h
    · exact hs h
    · exact lt_notMem_tseg6 h
    · exact hxv h
    · exact lt_notMem_tseg7 h
    · exact hk h
    · exact lt_notMem_tseg8 h
    · exact he h
    · exact lt_notMem_tseg9 h
  intro tok htok
  have htok2 : tok = rcTok ∨ tok = nameTok ∨ tok = contactTok ∨ tok = domTok ∨
      tok = sumTok ∨ tok = expTok ∨ tok = skillsTok ∨ tok = eduTok := by
    simpa [placeholderToks] using htok
  rcases htok2 with rfl | rfl | rfl | rfl | rfl | rfl | rfl | rfl <;>
    exact hasSub_false_of_head_notMem _ (by decide) _ hout

/-- Witness for the amended C3 at a concrete field set: all hypotheses hold
and the rendered document contains no placeholder token. -/
theorem claim3_substitution_amended_witness :
    ('<' ∉ ((some "Jane Doe" : Option String).getD "Your Name").toList) ∧
    ('<' ∉ ((some "jane@example.com" : Option String).getD
      "email@example.com | (555) 123-4567").toList) ∧
    ('<' ∉ ("Builder" : String).toList) ∧
    ('<' ∉ ("A builder profile." : String).toList) ∧
    ('<' ∉ ((some "- built the platform" : Option String).getD "").toList) ∧
    ('<' ∉ ((some "Python, Go" : Option String).getD "Skills here").toList) ∧
    ('<' ∉ ((some "BSc 2001" : Option String).getD "Education details here").toList) ∧
    (∀ tok ∈ placeholderToks,
      hasSub tok (generate_latex_from_resume (some "Jane Doe") (some "jane@example.com")
        (some "- built the platform") (some "Python, Go") (some "BSc 2001")
        "A builder profile." "Builder") = false) :=
  ⟨by decide, by decide, by decide, by decide, by decide, by decide, by decide,
    (claim3_substitution_amended (some "Jane Doe") (some "jane@example.com")
      (some "- built the platform") (some "Python, Go") (some "BSc 2001")
      "A builder profile." "Builder" (by decide) (by decide) (by decide) (by decide)
      (by decide) (by decide) (by decide)).2⟩

set_option maxRecDepth 6000 in
/-- C3 counterexample: the claim fails as stated for arbitrary field sets.
First, an education value containing the (earlier-substituted) name token
survives into the output as an unresolved placeholder.  Second, a present
but empty name field is substituted verbatim instead of the default
"Your Name", so absent and empty fields are not treated alike. -/
theorem claim3_substitution_counterexample :
    hasSub nameTok (generate_latex_from_resume (some "Jane Doe") (some "jane@example.com")
      (some "- built the platform") (some "Python, Go") (some "<<NAME>> BSc 2001")
      "A builder profile." "Builder") = true ∧
    hasSub "Your Name".toList (generate_latex_from_resume (some "") (some "jane@example.com")
      (some "- built the platform") (some "Python, Go") (some "BSc 2001")
      "A builder profile." "Builder") = false := by
  constructor
  · rw [generate_latex_eq_chain,
      render_chain (get_color_for_role "Builder").toList
        ((some "Jane Doe" : Option String).getD "Your Name").toList
        ((some "jane@example.com" : Option String).getD
          "email@example.com | (555) 123-4567").toList
        ("Builder" : String).toList ("A builder profile." : String).toList
        (if ((some "- built the platform" : Option String).getD "").toList ≠ [] then
          formatExperience ((some "- built the platform" : Option String).getD "").toList
        else "Experience details here".toList)
        ((some "Python, Go" : Option String).getD "Skills here").toList
        ((some "<<NAME>> BSc 2001" : Option String).getD "Education details here").toList
        (get_color_no_lt "Builder") (by decide) (by decide) (by decide) (by decide)
        (by decide) (by decide)]
    apply hasSub_append_of_right
    apply hasSub_append_of_right
    apply hasSub_append_of_right
    apply hasSub_append_of_right
    apply hasSub_append_of_right
    apply hasSub_append_of_right
    apply hasSub_append_of_right
    apply hasSub_append_of_right
    apply hasSub_append_of_right
    apply hasSub_append_of_right
    apply hasSub_append_of_right
    apply hasSub_append_of_right
    apply hasSub_append_of_right
    apply hasSub_append_of_right
    apply hasSub_append_of_right
    apply hasSub_append_of_right
    apply hasSub_append_of_right
    rw [show ((some "<<NAME>> BSc 2001" : Option String).getD
        "Education details here").toList = nameTok ++ " BSc 2001".toList by decide,
      List.append_assoc]
    exact hasSub_append_mid nameTok (by decide) [] _
  · rw [generate_latex_eq_chain,
      render_chain (get_color_for_role "Builder").toList
        ((some "" : Option String).getD "Your Name").toList
        ((some "jane@example.com" : Option String).getD
          "email@example.com | (555) 123-4567").toList
        ("Builder" : String).toList ("A builder profile." : String).toList
        (if ((some "- built the platform" : Option String).getD "").toList ≠ [] then
          formatExperience ((some "- built the platform" : Option String).getD "").toList
        else "Experience details here".toList)
        ((some "Python, Go" : Option String).getD "Skills here").toList
        ((some "BSc 2001" : Option String).getD "Education details here").toList
        (get_color_no_lt "Builder") (by decide) (by decide) (by decide) (by decide)
        (by decide) (by decide)]
    decide

/-! ### Structural validator (e2b_runner.py, validate_latex_syntax) -/

/-- Pattern `\documentclass`. -/
def docclassPat : List Char := "\\documentclass".toList

/-- Pattern `\begin{document}`. -/
def beginDocPat : List Char := "\\begin\x7bdocument\x7d".toList

/-- Pattern `\end{document}`. -/
def endDocPat : List Char := "\\end\x7bdocument\x7d".toList

/-- Pattern `\begin{` opening an environment. -/
def beginEnvPat : List Char := "\\begin\x7b".toList

/-- Pattern `\end{` closing an environment. -/
def endEnvPat : List Char := "\\end\x7b".toList

/-- Two backslashes (the LaTeX line break). -/
def twoBackslashes : List Char := "\\\\".toList

/-- Four backslashes. -/
def fourBackslashes : List Char := "\\\\\\\\".toList

/-- Error message for a missing `\documentclass` (e2b_runner.py line 192). -/
def msgMissingDocclass : List Char := "Missing \\documentclass declaration".toList

/-- Error message for a missing `\begin{document}` (line 196). -/
def msgMissingBeginDoc : List Char := "Missing \\begin\x7bdocument\x7d".toList

/-- Error message for a missing `\end{document}` (line 198). -/
def msgMissingEndDoc : List Char := "Missing \\end\x7bdocument\x7d".toList

/-- Decimal digits of a number, for message interpolation. -/
def natChars (n : Nat) : List Char := (Nat.repr n).toList

/-- Brace-imbalance message (line 204). -/
def msgUnbalancedBraces (o c : Nat) : List Char :=
  "Unbalanced braces: ".toList ++ (natChars o ++ (" opening, ".toList ++
    (natChars c ++ " closing".toList)))

/-- Environment-imbalance message (line 222). -/
def msgUnbalancedEnv (env : List Char) (b e : Nat) : List Char :=
  "Unbalanced environment \x27".toList ++ (env ++ ("\x27: ".toList ++
    (natChars b ++ (" begins, ".toList ++ (natChars e ++ " ends".toList)))))

/-- Line-break style warning (line 226). -/
def msgLineBreaks : List Char :=
  "Check line breaks - use \\\\ for line breaks in LaTeX".toList

/-- Fuel-driven scan for `re.findall(r'\\begin\{(\w+)\}', ...)` (and the
`\end` variant): at each position, match the marker, then one or more word
characters, then a closing brace; on success, collect the name and resume
after the match, otherwise advance one character. -/
def scanEnvsGo (marker : List Char) : Nat → List Char → List (List Char)
  | 0, _ => []
  | _ + 1, [] => []
  | fuel + 1, c :: rest =>
    if marker.isPrefixOf (c :: rest) then
      if ((c :: rest).drop marker.length).takeWhile isWordChar ≠ [] ∧
          (((c :: rest).drop marker.length).drop
            (((c :: rest).drop marker.length).takeWhile isWordChar).length).headD ' ' =
            '\x7d' then
        ((c :: rest).drop marker.length).takeWhile isWordChar ::
          scanEnvsGo marker fuel ((c :: rest).drop
            (marker.length +
              (((c :: rest).drop marker.length).takeWhile isWordChar).length + 1))
      else scanEnvsGo marker fuel rest
    else scanEnvsGo marker fuel rest

/-- The environment names matched by the regex scan, in text order. -/
def scanEnvs (marker text : List Char) : List (List Char) :=
  scanEnvsGo marker text.length text

/-- First-occurrence deduplication.  Python iterates over a `set`, whose
order is unspecified; the embedding fixes first-occurrence order (the
claims do not depend on the order of the error list within this check). -/
def dedupFirstAux : List (List Char) → List (List Char) → List (List Char)
  | [], _ => []
  | x :: xs, seen =>
    if x ∈ seen then dedupFirstAux xs seen
    else x :: dedupFirstAux xs (x :: seen)

/-- Deduplicate keeping first occurrences. -/
def dedupFirst (l : List (List Char)) : List (List Char) := dedupFirstAux l []

/-- Result of `validate_latex_syntax` (e2b_runner.py lines 228-232). -/
structure ValidationReport where
  valid : Bool
  errors : List (List Char)
  warnings : List (List Char)

/-- Document-class check (e2b_runner.py lines 191-192). -/
def docclassErrors (code : List Char) : List (List Char) :=
  if hasSub docclassPat code then [] else [msgMissingDocclass]

/-- `\begin{document}` check (lines 195-196). -/
def beginDocErrors (code : List Char) : List (List Char) :=
  if hasSub beginDocPat code then [] else [msgMissingBeginDoc]

/-- `\end{document}` check (lines 197-198). -/
def endDocErrors (code : List Char) : List (List Char) :=
  if hasSub endDocPat code then [] else [msgMissingEndDoc]

/-- Brace-balance check (lines 201-204). -/
def braceErrors (code : List Char) : List (List Char) :=
  if code.count '\x7b' = code.count '\x7d' then []
  else [msgUnbalancedBraces (code.count '\x7b') (code.count '\x7d')]

/-- Environment-balance check (lines 207-222). -/
def envErrors (code : List Char) : List (List Char) :=
  (dedupFirst (scanEnvs beginEnvPat code ++ scanEnvs endEnvPat code)).filterMap fun env =>
    if (scanEnvs beginEnvPat code).count env ≠ (scanEnvs endEnvPat code).count env then
      some (msgUnbalancedEnv env ((scanEnvs beginEnvPat code).count env)
        ((scanEnvs endEnvPat code).count env))
    else none

/-- `validate_latex_syntax` (e2b_runner.py lines 179-232): all checks run
unconditionally; the report aggregates the errors in check order, the
warning never affects validity, and `valid` holds exactly when no error was
collected. -/
def validate_latex (code : List Char) : ValidationReport :=
  { valid := (docclassErrors code ++ beginDocErrors code ++ endDocErrors code ++
      braceErrors code ++ envErrors code).isEmpty
    errors := docclassErrors code ++ beginDocErrors code ++ endDocErrors code ++
      braceErrors code ++ envErrors code
    warnings :=
      if hasSub twoBackslashes code && ! hasSub fourBackslashes code then [msgLineBreaks]
      else [] }

/-- Two messages differing at index 11 are different. -/
theorem ne_of_get11 {l1 l2 : List Char} (c1 c2 : Char) (h1 : l1[11]? = some c1)
    (h2 : l2[11]? = some c2) (hc : c1 ≠ c2) : l1 ≠ l2 := by
  intro h
  rw [h, h2] at h1
  exact hc (Option.some.inj h1).symm

/-- Index 11 of any brace-imbalance message is `b`. -/
theorem msgUnbalancedBraces_get11 (o c : Nat) : (msgUnbalancedBraces o c)[11]? = some 'b' := by
  unfold msgUnbalancedBraces
  rw [List.getElem?_append, if_pos (by decide)]
  decide

/-- Index 11 of any environment-imbalance message is `e`. -/
theorem msgUnbalancedEnv_get11 (env : List Char) (b e : Nat) :
    (msgUnbalancedEnv env b e)[11]? = some 'e' := by
  unfold msgUnbalancedEnv
  rw [List.getElem?_append, if_pos (by decide)]
  decide

/-- A brace message is never the missing-end-document message. -/
theorem msgUnbalancedBraces_ne_endDoc (o c : Nat) :
    msgUnbalancedBraces o c ≠ msgMissingEndDoc :=
  ne_of_get11 'b' 'd' (msgUnbalancedBraces_get11 o c) (by decide) (by decide)

/-- A brace message is never the missing-documentclass message. -/
theorem msgUnbalancedBraces_ne_docclass (o c : Nat) :
    msgUnbalancedBraces o c ≠ msgMissingDocclass :=
  ne_of_get11 'b' 'c' (msgUnbalancedBraces_get11 o c) (by decide) (by decide)

/-- A brace message is never the missing-begin-document message. -/
theorem msgUnbalancedBraces_ne_beginDoc (o c : Nat) :
    msgUnbalancedBraces o c ≠ msgMissingBeginDoc :=
  ne_of_get11 'b' 'g' (msgUnbalancedBraces_get11 o c) (by decide) (by decide)

/-- An environment message is never the missing-end-document message. -/
theorem msgUnbalancedEnv_ne_endDoc (env : List Char) (b e : Nat) :
    msgUnbalancedEnv env b e ≠ msgMissingEndDoc :=
  ne_of_get11 'e' 'd' (msgUnbalancedEnv_get11 env b e) (by decide) (by decide)

/-- An environment message is never a brace message. -/
theorem msgUnbalancedEnv_ne_braces (env : List Char) (b e o c : Nat) :
    msgUnbalancedEnv env b e ≠ msgUnbalancedBraces o c :=
  ne_of_get11 'e' 'b' (msgUnbalancedEnv_get11 env b e) (msgUnbalancedBraces_get11 o c)
    (by decide)

/-- The missing-end-document message never appears in the environment
check's output. -/
theorem msgMissingEndDoc_notMem_envErrors (code : List Char) :
    msgMissingEndDoc ∉ envErrors code := by
  intro hm
  rcases List.mem_filterMap.mp hm with ⟨env, _, heq⟩
  split_ifs at heq with hcond
  exact msgUnbalancedEnv_ne_endDoc env _ _ (Option.some.inj heq)

/-- The missing-end-document message never appears in the brace check's
output. -/
theorem msgMissingEndDoc_notMem_braceErrors (code : List Char) :
    msgMissingEndDoc ∉ braceErrors code := by
  unfold braceErrors
  split_ifs
  · simp
  · intro hm
    rcases List.mem_cons.mp hm with hm | hm
    · exact msgUnbalancedBraces_ne_endDoc _ _ hm.symm
    · simp at hm

/-- C7: on any document lacking `\end{document}`, the report is invalid and
contains exactly one error naming that marker; the brace-balance check is
still evaluated independently (its error is present exactly when the brace
counts differ) and every imbalanced environment name contributes its own
error to the same report — no check short-circuits another. -/
theorem claim7_validator_missing_end (code : List Char)
    (h : hasSub endDocPat code = false) :
    (validate_latex code).valid = false ∧
    (validate_latex code).errors.count msgMissingEndDoc = 1 ∧
    (msgUnbalancedBraces (code.count '\x7b') (code.count '\x7d') ∈
        (validate_latex code).errors ↔
      code.count '\x7b' ≠ code.count '\x7d') ∧
    (∀ env ∈ dedupFirst (scanEnvs beginEnvPat code ++ scanEnvs endEnvPat code),
      (scanEnvs beginEnvPat code).count env ≠ (scanEnvs endEnvPat code).count env →
        msgUnbalancedEnv env ((scanEnvs beginEnvPat code).count env)
          ((scanEnvs endEnvPat code).count env) ∈ (validate_latex code).errors) := by
  have hend : endDocErrors code = [msgMissingEndDoc] := by
    unfold endDocErrors
    rw [h]
    rfl
  have herr : (validate_latex code).errors = docclassErrors code ++ beginDocErrors code ++
      [msgMissingEndDoc] ++ braceErrors code ++ envErrors code := by
    show docclassErrors code ++ beginDocErrors code ++ endDocErrors code ++
      braceErrors code ++ envErrors code = _
    rw [hend]
  have hcd : (docclassErrors code).count msgMissingEndDoc = 0 := by
    unfold docclassErrors
    split_ifs
    · rfl
    · simp [List.count_cons, List.count_nil]
      decide
  have hbd : (beginDocErrors code).count msgMissingEndDoc = 0 := by
    unfold beginDocErrors
    split_ifs
    · rfl
    · simp [List.count_cons, List.count_nil]
      decide
  have hbr : (braceErrors code).count msgMissingEndDoc = 0 :=
    List.count_eq_zero.mpr (msgMissingEndDoc_notMem_braceErrors code)
  have henv : (envErrors code).count msgMissingEndDoc = 0 :=
    List.count_eq_zero.mpr (msgMissingEndDoc_notMem_envErrors code)
  have hcount : (validate_latex code).errors.count msgMissingEndDoc = 1 := by
    rw [herr]
    simp only [List.count_append, hcd, hbd, hbr, henv]
    decide
  refine ⟨?_, hcount, ?_, ?_⟩
  · have hmem : msgMissingEndDoc ∈ (validate_latex code).errors := by
      rw [herr]
      simp [List.mem_append]
    rcases hlist : (validate_latex code).errors with _ | ⟨e0, rest⟩
    · rw [hlist] at hmem
      simp at hmem
    · show ((validate_latex code).errors).isEmpty = false
      rw [hlist]
      rfl
  · constructor
    · intro hmem
      by_contra h0
      have hempty : braceErrors code = [] := by
        unfold braceErrors
        rw [if_pos h0]
      rw [herr, hempty] at hmem
      simp only [List.append_nil, List.mem_append] at hmem
      rcases hmem with ((hmem | hmem) | hmem) | hmem
      · unfold docclassErrors at hmem
        split_ifs at hmem
        · simp at hmem
        · rcases List.mem_cons.mp hmem with hmem | hmem
          · exact msgUnbalancedBraces_ne_docclass _ _ hmem
          · simp at hmem
      · unfold beginDocErrors at hmem
        split_ifs at hmem
        · simp at hmem
        · rcases List.mem_cons.mp hmem with hmem | hmem
          · exact msgUnbalancedBraces_ne_beginDoc _ _ hmem
          · simp at hmem
      · rcases List.mem_cons.mp hmem with hmem | hmem
        · exact msgUnbalancedBraces_ne_endDoc _ _ hmem
        · simp at hmem
      · rcases List.mem_filterMap.mp hmem with ⟨env, _, heq⟩
        split_ifs at heq
        exact msgUnbalancedEnv_ne_braces env _ _ _ _ (Option.some.inj heq)
    · intro hne
      have hbrace : braceErrors code =
          [msgUnbalancedBraces (code.count '\x7b') (code.count '\x7d')] := by
        unfold braceErrors
        rw [if_neg hne]
      rw [herr, hbrace]
      simp [List.mem_append]
  · intro env hmem hne
    have : msgUnbalancedEnv env ((scanEnvs beginEnvPat code).count env)
        ((scanEnvs endEnvPat code).count env) ∈ envErrors code :=
      List.mem_filterMap.mpr ⟨env, hmem, by rw [if_pos hne]⟩
    rw [herr]
    simp only [List.mem_append]
    exact Or.inr this

/-- Witness for C7 on a concrete document missing the end marker, with an
unbalanced brace and an unbalanced environment. -/
theorem claim7_validator_missing_end_witness :
    hasSub endDocPat
      "\\documentclass\x7barticle\x7d \\begin\x7bdocument\x7d \x7b".toList = false ∧
    ((validate_latex
        "\\documentclass\x7barticle\x7d \\begin\x7bdocument\x7d \x7b".toList).valid = false ∧
      (validate_latex
        "\\documentclass\x7barticle\x7d \\begin\x7bdocument\x7d \x7b".toList).errors.count
          msgMissingEndDoc = 1 ∧
      (msgUnbalancedBraces
          ("\\documentclass\x7barticle\x7d \\begin\x7bdocument\x7d \x7b".toList.count '\x7b')
          ("\\documentclass\x7barticle\x7d \\begin\x7bdocument\x7d \x7b".toList.count '\x7d') ∈
          (validate_latex
            "\\documentclass\x7barticle\x7d \\begin\x7bdocument\x7d \x7b".toList).errors ↔
        "\\documentclass\x7barticle\x7d \\begin\x7bdocument\x7d \x7b".toList.count '\x7b' ≠
          "\\documentclass\x7barticle\x7d \\begin\x7bdocument\x7d \x7b".toList.count '\x7d') ∧
      (∀ env ∈ dedupFirst
          (scanEnvs beginEnvPat
            "\\documentclass\x7barticle\x7d \\begin\x7bdocument\x7d \x7b".toList ++
          scanEnvs endEnvPat
            "\\documentclass\x7barticle\x7d \\begin\x7bdocument\x7d \x7b".toList),
        (scanEnvs beginEnvPat
            "\\documentclass\x7barticle\x7d \\begin\x7bdocument\x7d \x7b".toList).count env ≠
          (scanEnvs endEnvPat
            "\\documentclass\x7barticle\x7d \\begin\x7bdocument\x7d \x7b".toList).count env →
          msgUnbalancedEnv env
            ((scanEnvs beginEnvPat
              "\\documentclass\x7barticle\x7d \\begin\x7bdocument\x7d \x7b".toList).count env)
            ((scanEnvs endEnvPat
              "\\documentclass\x7barticle\x7d \\begin\x7bdocument\x7d \x7b".toList).count env) ∈
            (validate_latex
              "\\documentclass\x7barticle\x7d \\begin\x7bdocument\x7d \x7b".toList).errors)) :=
  ⟨by decide,
    claim7_validator_missing_end
      "\\documentclass\x7barticle\x7d \\begin\x7bdocument\x7d \x7b".toList (by decide)⟩
